import Mathlib

/-!
Verification development for the Tenebra core ledger node.

Each section embeds a slice of the source (shallow embedding: JS numbers
become `Nat`/`Int`/`ℚ` with explicit wrapping where overflow matters,
nullable fields become `Option`, fallible operations return `Except`),
and the theorems at the end settle the specification claims against
those embeddings.
-/

namespace Tenebra

/-! ## SHA-256 and hex utilities

Modelled from the spec: `utils.js` is not part of the provided sources;
§4.1 specifies `sha256(parts…)` as the concatenation of the byte-wise
encoding of its arguments (strings as UTF-8, raw byte buffers as-is)
followed by the lowercase hex digest of SHA-256.  The functions below are
a bit-accurate executable SHA-256 over byte lists.
-/

/-- Truncate to a 32-bit word. -/
def w32 (n : Nat) : Nat := n % 4294967296

/-- Rotate a 32-bit word right by `n` bits. -/
def rotr (n x : Nat) : Nat := w32 ((x >>> n) ||| (x <<< (32 - n)))

def bigSigma0 (x : Nat) : Nat := (rotr 2 x) ^^^ (rotr 13 x) ^^^ (rotr 22 x)

def bigSigma1 (x : Nat) : Nat := (rotr 6 x) ^^^ (rotr 11 x) ^^^ (rotr 25 x)

def smallSigma0 (x : Nat) : Nat := (rotr 7 x) ^^^ (rotr 18 x) ^^^ (x >>> 3)

def smallSigma1 (x : Nat) : Nat := (rotr 17 x) ^^^ (rotr 19 x) ^^^ (x >>> 10)

def chF (x y z : Nat) : Nat := (x &&& y) ^^^ ((x ^^^ 4294967295) &&& z)

def majF (x y z : Nat) : Nat := (x &&& y) ^^^ (x &&& z) ^^^ (y &&& z)

/-- SHA-256 round constants. -/
def shaK : List Nat :=
  [1116352408, 1899447441, 3049323471, 3921009573, 961987163, 1508970993,
   2453635748, 2870763221, 3624381080, 310598401, 607225278, 1426881987,
   1925078388, 2162078206, 2614888103, 3248222580, 3835390401, 4022224774,
   264347078, 604807628, 770255983, 1249150122, 1555081692, 1996064986,
   2554220882, 2821834349, 2952996808, 3210313671, 3336571891, 3584528711,
   113926993, 338241895, 666307205, 773529912, 1294757372, 1396182291,
   1695183700, 1986661051, 2177026350, 2456956037, 2730485921, 2820302411,
   3259730800, 3345764771, 3516065817, 3600352804, 4094571909, 275423344,
   430227734, 506948616, 659060556, 883997877, 958139571, 1322822218,
   1537002063, 1747873779, 1955562222, 2024104815, 2227730452, 2361852424,
   2428436474, 2756734187, 3204031479, 3329325298]

/-- SHA-256 initial hash state. -/
def shaH0 : List Nat :=
  [1779033703, 3144134277, 1013904242, 2773480762, 1359893119, 2600822924, 528734635, 1541459225]

/-- Big-endian conversion of a byte list into 32-bit words (4 bytes each). -/
def bytesToWords : List Nat → List Nat
  | b0 :: b1 :: b2 :: b3 :: rest => (((b0 * 256 + b1) * 256 + b2) * 256 + b3) :: bytesToWords rest
  | _ => []

/-- Extend the 16 message words to 64 via the SHA-256 message schedule. -/
def extendWords : Nat → List Nat → List Nat
  | 0, ws => ws
  | k + 1, ws =>
    let n := ws.length
    let w := w32 (smallSigma1 (ws.getD (n - 2) 0) + ws.getD (n - 7) 0 +
                  smallSigma0 (ws.getD (n - 15) 0) + ws.getD (n - 16) 0)
    extendWords k (ws ++ [w])

/-- One SHA-256 compression round on the 8-word working state. -/
def shaRound (st : List Nat) (k w : Nat) : List Nat :=
  match st with
  | [a, b, c, d, e, f, g, h] =>
    let t1 := w32 (h + bigSigma1 e + chF e f g + k + w)
    let t2 := w32 (bigSigma0 a + majF a b c)
    [w32 (t1 + t2), a, b, c, w32 (d + t1), e, f, g]
  | other => other

/-- Compress one 64-byte chunk into the hash state. -/
def shaCompress (h : List Nat) (chunk : List Nat) : List Nat :=
  let ws := extendWords 48 (bytesToWords chunk)
  let st := (shaK.zip ws).foldl (fun st kw => shaRound st kw.1 kw.2) h
  (h.zip st).map (fun p => w32 (p.1 + p.2))

/-- Big-endian 8-byte encoding of the bit length. -/
def lenBytes (n : Nat) : List Nat :=
  (List.range 8).map (fun i => (n >>> (8 * (7 - i))) % 256)

/-- SHA-256 padding: `0x80`, zeros to 56 mod 64, then the 64-bit bit length. -/
def padBytes (msg : List Nat) : List Nat :=
  let zeros := (119 - msg.length % 64) % 64
  msg ++ [0x80] ++ List.replicate zeros 0 ++ lenBytes (8 * msg.length)

/-- Split a byte list into 64-byte chunks (fuel-driven). -/
def chunksOf64 : Nat → List Nat → List (List Nat)
  | 0, _ => []
  | _ + 1, [] => []
  | fuel + 1, l => l.take 64 :: chunksOf64 fuel (l.drop 64)

/-- Convert 32-bit words back to big-endian bytes. -/
def wordsToBytes (ws : List Nat) : List Nat :=
  (ws.map (fun w => [(w >>> 24) % 256, (w >>> 16) % 256, (w >>> 8) % 256, w % 256])).flatten

/-- SHA-256 digest (32 bytes) of a byte list. -/
def sha256Bytes (msg : List Nat) : List Nat :=
  let padded := padBytes msg
  wordsToBytes ((chunksOf64 padded.length padded).foldl shaCompress shaH0)

/-- Lowercase hex digit for a nibble. -/
def hexDigit (n : Nat) : Char := if n < 10 then Char.ofNat (48 + n) else Char.ofNat (87 + n)

/-- Lowercase hex encoding of a byte list. -/
def bytesToHexChars (bs : List Nat) : List Char :=
  (bs.map (fun b => [hexDigit (b / 16 % 16), hexDigit (b % 16)])).flatten

/-- UTF-8 encoding of one character. -/
def utf8Char (c : Char) : List Nat :=
  let n := c.toNat
  if n < 128 then [n]
  else if n < 2048 then [192 ||| (n >>> 6), 128 ||| (n &&& 63)]
  else if n < 65536 then
    [224 ||| (n >>> 12), 128 ||| ((n >>> 6) &&& 63), 128 ||| (n &&& 63)]
  else
    [240 ||| (n >>> 18), 128 ||| ((n >>> 12) &&& 63), 128 ||| ((n >>> 6) &&& 63), 128 ||| (n &&& 63)]

/-- UTF-8 encoding of a character list. -/
def utf8Chars (cs : List Char) : List Nat := (cs.map utf8Char).flatten

/-- UTF-8 encoding of a string. -/
def utf8Str (s : String) : List Nat := utf8Chars s.data

/-- Lowercase hex SHA-256 digest of a byte list, as characters. -/
def sha256Hex (bs : List Nat) : List Char := bytesToHexChars (sha256Bytes bs)

/-- The source's `utils.sha256` on one character-list argument. -/
def shaStrChars (cs : List Char) : List Char := sha256Hex (utf8Chars cs)

/-- The source's `utils.sha256` on one string argument. -/
def shaOfString (s : String) : List Char := shaStrChars s.data

/-- The source's `utils.sha256` on one string argument, as a string. -/
def sha256S (s : String) : String := ⟨shaOfString s⟩

/-! ## v2 address derivation (`Tenebra.makeV2Address`, `src/tenebra.js` lines 220-243) -/

/-- Value of one hex digit; non-hex characters give 0, so the result is
always below 16 (matching `parseInt` on the lowercase hex strings the
algorithm actually produces). -/
def hexVal (c : Char) : Nat :=
  let n := c.toNat
  if 48 ≤ n ∧ n ≤ 57 then n - 48
  else if 97 ≤ n ∧ n ≤ 102 then n - 87
  else 0

/-- Value of the pair of hex characters at positions `2*i, 2*i+1`
(the source's `parseInt(hash.substring(2*i, 2+(2*i)), 16)`). -/
def hexPairVal (cs : List Char) (i : Nat) : Nat :=
  16 * hexVal (cs.getD (2 * i) '0') + hexVal (cs.getD (2 * i + 1) '0')

/-- Value of a stored two-character slot (the source's `parseInt(chars[index], 16)`). -/
def hexByteVal (pair : List Char) : Nat :=
  16 * hexVal (pair.getD 0 '0') + hexVal (pair.getD 1 '0')

/-- Modelled from the spec: `utils.hexToBase36` is not in the provided
sources; §4.1 step 3 calls it `toBase36`.  The reference implementation
scans bands `i = 6, 13, …, 251` (width 7) and returns digits `0`-`9` for
the first ten bands, letters `a`-`z` for the next twenty-six, and `e`
above 251; the first band containing `n` is band `n / 7`. -/
def hexToBase36 (input : Nat) : Char :=
  if input ≤ 69 then Char.ofNat (48 + input / 7)
  else if input ≤ 251 then Char.ofNat (97 + (input / 7 - 10))
  else 'e'

/-- First loop of `makeV2Address`: for `i = 0..8`, store `hash.substring(0,2)`
in slot `i` and double-hash; returns the nine slots and the final hash. -/
def v2Slots : Nat → List Char → List (List Char) × List Char
  | 0, hash => ([], hash)
  | k + 1, hash =>
    let rest := v2Slots k (shaStrChars (shaStrChars hash))
    (hash.take 2 :: rest.1, rest.2)

/-- Second loop of `makeV2Address`: pick slot `index` from the hash pair at
cursor `i`; on an empty slot re-hash once, otherwise append the base36
character, clear the slot and advance.  Fuel-driven because the source
loop re-hashes until a non-empty slot is hit. -/
def v2Loop : Nat → Nat → List (List Char) → List Char → List Char → Option (List Char)
  | 0, _, _, _, _ => none
  | fuel + 1, i, slots, hash, acc =>
    if 8 < i then some acc
    else
      let index := hexPairVal hash i % 9
      let slot := slots.getD index []
      if slot = [] then v2Loop fuel i slots (shaStrChars hash) acc
      else v2Loop fuel (i + 1) (slots.set index []) hash
        (acc ++ [hexToBase36 (hexByteVal slot)])

/-- The source's `Tenebra.makeV2Address` (`src/tenebra.js` lines 220-243),
with explicit fuel for the inner re-hash loop. -/
def makeV2Address (fuel : Nat) (key : String) : Option String :=
  let h0 := shaStrChars (shaOfString key)
  let init := v2Slots 9 h0
  (v2Loop fuel 0 init.1 init.2 ['t']).map fun cs => ⟨cs⟩

/-- Character class `[a-z0-9]`. -/
def isBase36Char (c : Char) : Bool :=
  (48 ≤ c.toNat && c.toNat ≤ 57) || (97 ≤ c.toNat && c.toNat ≤ 122)

/-- The v2 address regex `^t[a-z0-9]{9}$` as a boolean predicate. -/
def isV2AddressStr (s : String) : Bool :=
  s.length == 10 && s.data.headD ' ' == 't' && (s.data.drop 1).all isBase36Char

/-! ## Data model (§3) -/

/-- Address table row (`addresses`). `privatekey` is the stored private-key
hash (`opt<hex>`); JS `null` is `none`. -/
structure AddressRow where
  address : String
  balance : Int := 0
  totalin : Int := 0
  totalout : Int := 0
  stake : Int := 0
  penalty : Int := 0
  stake_active : Bool := false
  locked : Bool := false
  privatekey : Option String := none
  deriving Repr, DecidableEq

/-- Name table row (`names`), restricted to the fields the claims mention. -/
structure NameRow where
  name : String
  owner : String := ""
  unpaid : Int := 0
  deriving Repr, DecidableEq

/-- Transaction table row (`transactions`).  The JS `from` field is `from_`
(`from` is reserved in Lean); `null` is `none`. -/
structure TxRow where
  from_ : Option String := none
  to_ : String := ""
  value : Int := 0
  name : Option String := none
  op : Option String := none
  sent_metaname : Option String := none
  sent_name : Option String := none
  deriving Repr, DecidableEq

/-- JS truthiness of a nullable string: `null`/`undefined` and `""` are
falsy, every other string (including `" "`) is truthy. -/
def jsTruthy (o : Option String) : Bool :=
  match o with
  | none => false
  | some s => !(s == "")

/-- The exported constants of `src/constants.js` (lines 22-31). -/
structure Constants where
  defaultBlockValue : Nat
  walletVersion : Nat
  nonceMaxSize : Nat
  nameCost : Nat
  minWork : Nat
  maxWork : Nat
  workFactor : ℚ
  secondsPerBlock : Nat

def constants : Constants :=
  { defaultBlockValue := 1
    walletVersion := 16
    nonceMaxSize := 24
    nameCost := 500
    minWork := 100
    maxWork := 100000
    workFactor := 25 / 1000
    secondsPerBlock := 60 }

/-- Reading `constants.validatorPenalty` yields `undefined`: `constants.js`
exports no such key. -/
def validatorPenaltyConst : Option Int := none

/-! ## Transaction engine (`src/transactions.js`) -/

/-- Transaction classification values of `Transactions.identifyTransactionType`. -/
inductive TxType
  | unknown
  | mined
  | staking
  | name_purchase
  | name_a_record
  | name_transfer
  | transfer
  deriving Repr, DecidableEq

/-- The source's `Transactions.identifyTransactionType`
(`src/transactions.js` lines 238-250).  The JS guards `!transaction.from`
and `if (transaction.name)` are truthiness tests. -/
def identifyTransactionType (t : TxRow) : TxType :=
  if !jsTruthy t.from_ then .mined
  else if t.from_ == some "staking" || t.to_ == "staking" then .staking
  else if jsTruthy t.name then
    if t.to_ == "name" then .name_purchase
    else if t.to_ == "a" then .name_a_record
    else .name_transfer
  else .transfer

/-- The `EXCLUDE_MINED` where-operator (`src/transactions.js` lines 44-48):
`from NOT IN ('', ' ') AND from IS NOT NULL`.  Returns whether a row
passes (is kept by) the filter. -/
def excludeMinedPass (f : Option String) : Bool :=
  (f != some "" && f != some " ") && f != none

/-- Row predicate of `Transactions.getTransactions`
(`src/transactions.js` lines 56-63): `includeMined ? {} : { from: EXCLUDE_MINED }`. -/
def getTransactionsFilter (includeMined : Bool) (db : List TxRow) : List TxRow :=
  db.filter fun t => includeMined || excludeMinedPass t.from_

/-- Row predicate of `Transactions.getTransactionsByAddress`
(`src/transactions.js` lines 74-99). -/
def getTransactionsByAddressFilter (includeMined : Bool) (address : String)
    (db : List TxRow) : List TxRow :=
  db.filter fun t =>
    if includeMined then t.from_ == some address || t.to_ == address
    else t.from_ == some address || (excludeMinedPass t.from_ && t.to_ == address)

/-- JS `String.prototype.toLowerCase`, character-wise. -/
def toLowerStr (s : String) : String := ⟨s.data.map Char.toLower⟩

/-- Look up an address row by primary key (`addresses.getAddress`). -/
def getAddress (db : List AddressRow) (a : String) : Option AddressRow :=
  db.find? fun r => r.address == a

/-- Apply an update to the row with the given primary key (the Sequelize
`increment`/`decrement`/`update` read-modify-write on one row). -/
def updateRow (db : List AddressRow) (a : String) (f : AddressRow → AddressRow) :
    List AddressRow :=
  db.map fun r => if r.address == a then f r else r

/-- The source's `Transactions.pushTransaction` (`src/transactions.js`
lines 209-236): decrement sender balance, increment sender totalout,
create the transaction row, and create or credit the recipient.  Returns
the updated address table and the created transaction row. -/
def pushTransaction (db : List AddressRow) (sender recipientAddress : String)
    (amount : Int) (name : Option String := none) (metadata : Option String := none) :
    List AddressRow × TxRow :=
  let recipient := getAddress db recipientAddress
  let db1 := updateRow db sender fun r => { r with balance := r.balance - amount }
  let db2 := updateRow db1 sender fun r => { r with totalout := r.totalout + amount }
  let newTx : TxRow := { from_ := some sender, to_ := recipientAddress, value := amount,
                         name := name, op := metadata }
  match recipient with
  | none =>
    (db2 ++ [{ address := toLowerStr recipientAddress, balance := amount,
               totalin := amount, totalout := 0 }], newTx)
  | some _ =>
    (updateRow db2 recipientAddress
      (fun r => { r with balance := r.balance + amount, totalin := r.totalin + amount }), newTx)

/-! ## Address ledger auth (`Addresses.verify`, `src/staking.js` bundle lines 325-361) -/

/-- The source's `Addresses.verify`, as a function of the row currently
stored for the claimed address (if any).  Returns `(authed, row)` where
`row` is the row after any creation or claim performed by `verify`. -/
def verify (row? : Option AddressRow) (tenebraAddress privatekey : String) :
    Bool × AddressRow :=
  let hash := sha256S (tenebraAddress ++ privatekey)
  match row? with
  | none =>
    (true, { address := tenebraAddress, balance := 0, totalin := 0, totalout := 0,
             privatekey := some hash })
  | some address =>
    if jsTruthy address.privatekey then
      (!address.locked && address.privatekey == some hash, address)
    else
      (true, { address with privatekey := some hash })

/-! ## Staking engine (`src/staking.js`) -/

/-- The source's `Staking.getUnpaidPenaltyCount` (`src/staking.js`
lines 104-106): count of address rows with `penalty > 0`. -/
def getUnpaidPenaltyCount (db : List AddressRow) : Nat :=
  (db.filter fun r => 0 < r.penalty).length

/-- A JS runtime error surfaced by the embedding. -/
inductive JsError
  | referenceError (name : String)
  deriving Repr, DecidableEq

/-- `Math.min(a, b)` where `a` may be `undefined`; `Math.min(undefined, b)`
is `NaN`, modelled as `none`. -/
def jsMinOpt (a : Option Int) (b : Int) : Option Int :=
  a.map fun x => min x b

/-- Effects attempted by one `Staking.penalize(staker)` call
(`src/staking.js` lines 73-89).  The body updates only `stake` (by
`Math.min(constants.validatorPenalty, staker.stake)`) and `stake_active`;
it never touches the `penalty` or `balance` columns, and evaluating the
argument `amount` of `transactions.createTransaction` throws, because no
variable `amount` is in scope. -/
structure PenalizeAttempt where
  stakeDecrementBy : Option Int
  penaltyIncrementBy : Option Int
  stakeActiveAfter : Bool
  thrown : Option JsError
  deriving Repr, DecidableEq

/-- The source's `Staking.penalize` (`src/staking.js` lines 73-89). -/
def penalize (staker : AddressRow) : PenalizeAttempt :=
  { stakeDecrementBy := jsMinOpt validatorPenaltyConst staker.stake
    penaltyIncrementBy := none
    stakeActiveAfter := false
    thrown := some (.referenceError "amount") }

/-! ## Block engine (`Blocks`, second document of `src/websocket_routes/login.js`;
controller in `src/controllers/blocks.js`) -/

/-- The source's `Blocks.getBaseBlockValue` (`blockID >= 325 ? 1 : 25`). -/
def getBaseBlockValue (blockID : Nat) : Nat :=
  if 325 ≤ blockID then 1 else 25

/-- Modelled from the spec: `names.getUnpaidNameCount` lives in `names.js`,
which is absent from the provided sources; §3 invariant 8 fixes the name
bonus as the count of names with `unpaid > 0`. -/
def getUnpaidNameCount (names : List NameRow) : Nat :=
  (names.filter fun n => 0 < n.unpaid).length

/-- Ledger state consumed by one block submission. -/
structure ChainState where
  lastId : Nat
  lastTime : ℚ
  work : Int
  names : List NameRow
  addrs : List AddressRow

/-- The source's `Blocks.getBlockValue` (lines 175-179 of the `Blocks`
document): base value of the last block plus the unpaid-name count.  The
unpaid-penalty count is not part of this sum. -/
def getBlockValue (s : ChainState) : Nat :=
  getBaseBlockValue s.lastId + getUnpaidNameCount s.names

/-- The `block_value` reported by `GET /work/detailed`
(`src/routes/work.js` line 137): `baseValue + unpaidNames + unpaidPenalties`. -/
def workDetailedBlockValue (s : ChainState) : Nat :=
  getBaseBlockValue s.lastId + getUnpaidNameCount s.names + getUnpaidPenaltyCount s.addrs

/-- JS `Math.round`: round half toward positive infinity. -/
def jsRound (q : ℚ) : Int := ⌊q + 1 / 2⌋

/-- Work retarget as the source computes it (`Blocks.submit` lines 195-201):
`Math.round(Math.max(Math.min(oldWork + diff * workFactor, maxWork), minWork))`
with `diff = seconds * oldWork / secondsPerBlock - oldWork`. -/
def retargetWork (oldWork : Int) (seconds : ℚ) : Int :=
  let targetWork := seconds * oldWork / (constants.secondsPerBlock : ℚ)
  let diff := targetWork - oldWork
  jsRound (max (min ((oldWork : ℚ) + diff * constants.workFactor) (constants.maxWork : ℚ))
    (constants.minWork : ℚ))

/-- The retarget as claim C9 words it:
`clamp(round(w + (target - w) * work_factor), min_work, max_work)`. -/
def claimedRetarget (oldWork : Int) (seconds : ℚ) : Int :=
  let target := seconds * oldWork / (constants.secondsPerBlock : ℚ)
  max (min (jsRound ((oldWork : ℚ) + (target - oldWork) * constants.workFactor))
    (constants.maxWork : Int)) (constants.minWork : Int)

/-- Per-block unpaid decay (`Blocks.submit` lines 206-233): every name
found by the `unpaid > 0` query is decremented by 1; no other row is
touched. -/
def decrementUnpaidNames (names : List NameRow) : List NameRow :=
  names.map fun n => if 0 < n.unpaid then { n with unpaid := n.unpaid - 1 } else n

/-- Block-reward credit (`Blocks.submit` lines 235-247): increment
balance/totalin when the row exists, otherwise create it. -/
def creditAddress (db : List AddressRow) (address : String) (value : Int) :
    List AddressRow :=
  match getAddress db address with
  | some _ =>
    updateRow db address fun r =>
      { r with balance := r.balance + value, totalin := r.totalin + value }
  | none =>
    db ++ [{ address := address, balance := value, totalin := value, totalout := 0 }]

/-- Result of the database transaction inside `Blocks.submit`. -/
structure SubmitOutcome where
  value : Nat
  newWork : Int
  names : List NameRow
  addrs : List AddressRow
  minedTx : TxRow

/-- The database transaction of `Blocks.submit` (lines 188-249): block
value, work retarget, mined transaction (`from = null`), unpaid-name
decrement, and address credit. -/
def blocksSubmitTx (s : ChainState) (now : ℚ) (address : String) : SubmitOutcome :=
  let value := getBlockValue s
  let seconds := (now - s.lastTime) / 1000
  { value := value
    newWork := retargetWork s.work seconds
    names := decrementUnpaidNames s.names
    addrs := creditAddress s.addrs address (value : Int)
    minedTx := { from_ := none, to_ := address, value := (value : Int) } }

/-- Errors surfaced by block submission. -/
inductive SubmitError
  | missingParameter (p : String)
  | invalidParameter (p : String)
  | miningDisabled
  | solutionIncorrect
  | unselectedValidator
  | internalError (msg : String)
  deriving Repr, DecidableEq

/-- Fast-store and flag state read by `BlocksController.submitBlock`. -/
structure SubmitEnv where
  miningEnabled : Bool
  stakingEnabled : Bool
  freeNonceSubmission : Bool
  work : Nat
  validator : String

/-- The source's `Blocks.submit` entry guard plus transaction (lines
181-268): it throws `"WTF: Attempted to submit block while mining is
disabled!"` whenever mining is disabled, before doing anything else. -/
def blocksSubmit (env : SubmitEnv) (s : ChainState) (now : ℚ) (address : String) :
    Except SubmitError SubmitOutcome :=
  if !env.miningEnabled then
    .error (.internalError "WTF: Attempted to submit block while mining is disabled!")
  else
    .ok (blocksSubmitTx s now address)

/-- Integer value of a hex character list (`parseInt(…, 16)` on the
12-character hash prefix). -/
def hexParse (cs : List Char) : Nat :=
  cs.foldl (fun acc c => 16 * acc + hexVal c) 0

/-- The source's `BlocksController.submitBlock`
(`src/controllers/blocks.js` lines 97-134): gating, validation, PoW/PoS
acceptance check, then `blocks.submit`. -/
def submitBlockController (env : SubmitEnv) (s : ChainState) (now : ℚ)
    (address : String) (rawNonce : List Nat) (lastHash : String) :
    Except SubmitError SubmitOutcome :=
  if !env.miningEnabled && !env.stakingEnabled then .error .miningDisabled
  else if address == "" then .error (.missingParameter "address")
  else if !isV2AddressStr address then .error (.invalidParameter "address")
  else if rawNonce.length < 1 || constants.nonceMaxSize < rawNonce.length then
    .error (.invalidParameter "nonce")
  else
    let last := lastHash.data.take 12
    let h := sha256Hex (utf8Str address ++ utf8Chars last ++ rawNonce)
    let leading := hexParse (h.take 12)
    if (env.miningEnabled && (decide (leading ≤ env.work) || env.freeNonceSubmission)) ||
       (env.stakingEnabled && address == env.validator) then
      blocksSubmit env s now address
    else if env.miningEnabled && decide (env.work < leading) then
      .error .solutionIncorrect
    else
      .error .unselectedValidator

/-- Transaction classification exactly as claim C8 words it (comparison
definition written from the spec's words, for refutation): `from == null`
means SQL null, `name` set means non-null. -/
def claimedTransactionType (t : TxRow) : TxType :=
  if t.from_ = none then .mined
  else if t.from_ = some "staking" ∨ t.to_ = "staking" then .staking
  else if t.name ≠ none then
    if t.to_ = "name" then .name_purchase
    else if t.to_ = "a" then .name_a_record
    else .name_transfer
  else .transfer

/-! ## Concrete instances used by the claim theorems -/

/-- A ledger state with three unpaid names and one address carrying a
positive penalty, after block 325. -/
def c1Chain : ChainState :=
  { lastId := 325, lastTime := 0, work := 100000,
    names := [{ name := "aaa", unpaid := 500 }, { name := "bbb", unpaid := 400 },
              { name := "ccc", unpaid := 1 }],
    addrs := [{ address := "tpenalized", penalty := 1 }] }

/-- Fast-store state with mining disabled, staking enabled, and an elected
validator. -/
def c2Env : SubmitEnv :=
  { miningEnabled := false, stakingEnabled := true, freeNonceSubmission := false,
    work := 100000, validator := "tabcdefghi" }

def c2Chain : ChainState :=
  { lastId := 400, lastTime := 0, work := 100000, names := [], addrs := [] }

/-- The genesis block hash (`Tenebra.genGenesis`). -/
def genesisHash : String :=
  "0000000000000000000000000000000000000000000000000000000000000000"

def c3Db : List AddressRow := [{ address := "tsenderaaa", balance := 100 }]

/-- A staker with an active stake of 400. -/
def c4Staker : AddressRow :=
  { address := "tstakeraaa", balance := 600, stake := 400, stake_active := true }

def c5Chain : ChainState :=
  { lastId := 500, lastTime := 0, work := 50000,
    names := [{ name := "aname", unpaid := 2 }, { name := "bname", unpaid := 0 }],
    addrs := [] }

/-- An address row holding a stored private-key hash. -/
def c7Row : AddressRow := { address := "taddraaaaa", privatekey := some "deadbeef" }

/-- A transaction row with a blank (empty-string) sender addressed to the
staking account. -/
def c8Cex : TxRow := { from_ := some "", to_ := "staking" }

/-! ## Helper lemmas -/

theorem excludeMinedPass_eq (f : Option String) :
    excludeMinedPass f = !(f == none || f == some "" || f == some " ") := by
  cases f with
  | none => rfl
  | some s =>
    by_cases ha : s = "" <;> by_cases hb : s = " " <;>
      simp [excludeMinedPass, bne, beq_eq_decide, ha, hb]

theorem getAddress_updateRow_self (db : List AddressRow) (a : String)
    (f : AddressRow → AddressRow) (hf : ∀ r, (f r).address = r.address) :
    getAddress (updateRow db a f) a = (getAddress db a).map f := by
  induction db with
  | nil => rfl
  | cons r rest ih =>
    by_cases h : r.address = a
    · simp [getAddress, updateRow, List.find?_cons, h, hf, beq_iff_eq]
    · have hb : (r.address == a) = false := by simp [h]
      simp only [getAddress, updateRow, List.map_cons, List.find?_cons, hb, if_false,
        Bool.false_eq_true] at ih ⊢
      exact ih

theorem getAddress_updateRow_ne (db : List AddressRow) (a b : String)
    (f : AddressRow → AddressRow) (hf : ∀ r, (f r).address = r.address) (hne : b ≠ a) :
    getAddress (updateRow db a f) b = getAddress db b := by
  induction db with
  | nil => rfl
  | cons r rest ih =>
    by_cases h : r.address = a
    · have h1 : (r.address == a) = true := by simp [h]
      have h2 : ((f r).address == b) = false := by simp [hf, h, Ne.symm hne]
      have h3 : (r.address == b) = false := by simp [h, Ne.symm hne]
      simp only [getAddress, updateRow, List.map_cons, List.find?_cons, h1, h2, h3,
        if_true] at ih ⊢
      exact ih
    · have h1 : (r.address == a) = false := by simp [h]
      by_cases hb : r.address = b
      · have h2 : (r.address == b) = true := by simp [hb]
        simp only [getAddress, updateRow, List.map_cons, List.find?_cons, h1, h2, if_false,
          Bool.false_eq_true]
      · have h2 : (r.address == b) = false := by simp [hb]
        simp only [getAddress, updateRow, List.map_cons, List.find?_cons, h1, h2, if_false,
          Bool.false_eq_true] at ih ⊢
        exact ih

theorem getAddress_append_some (db1 db2 : List AddressRow) (a : String) (r : AddressRow)
    (h : getAddress db1 a = some r) :
    getAddress (db1 ++ db2) a = some r := by
  unfold getAddress at h ⊢
  rw [List.find?_append, h]
  rfl

theorem getAddress_append_none (db1 db2 : List AddressRow) (a : String)
    (h : getAddress db1 a = none) :
    getAddress (db1 ++ db2) a = getAddress db2 a := by
  unfold getAddress at h ⊢
  rw [List.find?_append, h]
  rfl

theorem jsRound_intCast (n : Int) : jsRound (n : ℚ) = n := by
  unfold jsRound
  rw [add_comm, Int.floor_add_int]
  norm_num

theorem jsRound_mono {x y : ℚ} (h : x ≤ y) : jsRound x ≤ jsRound y :=
  Int.floor_le_floor (by linarith)

theorem jsRound_clamp (x : ℚ) (m M : Int) (hmM : m ≤ M) :
    jsRound (max (min x (M : ℚ)) (m : ℚ)) = max (min (jsRound x) M) m := by
  have hc : ((m : ℚ)) ≤ ((M : ℚ)) := by exact_mod_cast hmM
  rcases le_total x (m : ℚ) with h1 | h1
  · rw [min_eq_left (le_trans h1 hc), max_eq_right h1, jsRound_intCast]
    have hxm : jsRound x ≤ m := by
      have := jsRound_mono h1
      rwa [jsRound_intCast] at this
    rw [min_eq_left (le_trans hxm hmM), max_eq_right hxm]
  · rcases le_total x (M : ℚ) with h2 | h2
    · rw [min_eq_left h2, max_eq_left h1]
      have hm : m ≤ jsRound x := by
        have := jsRound_mono h1
        rwa [jsRound_intCast] at this
      have hM : jsRound x ≤ M := by
        have := jsRound_mono h2
        rwa [jsRound_intCast] at this
      rw [min_eq_left hM, max_eq_left hm]
    · rw [min_eq_right h2, max_eq_left hc, jsRound_intCast]
      have hMx : M ≤ jsRound x := by
        have := jsRound_mono h2
        rwa [jsRound_intCast] at this
      rw [min_eq_right hMx, max_eq_left hmM]

theorem hexVal_lt (c : Char) : hexVal c < 16 := by
  simp only [hexVal]
  split_ifs <;> omega

theorem hexByteVal_lt (p : List Char) : hexByteVal p < 256 := by
  have h1 := hexVal_lt (p.getD 0 '0')
  have h2 := hexVal_lt (p.getD 1 '0')
  unfold hexByteVal
  omega

set_option maxRecDepth 10000 in
theorem hexToBase36_base36 (n : Nat) (h : n < 256) : isBase36Char (hexToBase36 n) = true := by
  have hb : ∀ m : Nat, m < 256 → isBase36Char (hexToBase36 m) = true := by decide
  exact hb n h

theorem v2Loop_shape : ∀ fuel i slots hash acc out,
    v2Loop fuel i slots hash acc = some out →
    ∃ app, out = acc ++ app ∧ app.length = 9 - i ∧ app.all isBase36Char = true := by
  intro fuel
  induction fuel with
  | zero =>
    intro i slots hash acc out h
    simp [v2Loop] at h
  | succ n ih =>
    intro i slots hash acc out h
    simp only [v2Loop] at h
    by_cases hi : 8 < i
    · rw [if_pos hi] at h
      injection h with h
      subst h
      exact ⟨[], by simp, by simp only [List.length_nil]; omega, rfl⟩
    · rw [if_neg hi] at h
      by_cases hs : slots.getD (hexPairVal hash i % 9) [] = []
      · rw [if_pos hs] at h
        exact ih i slots (shaStrChars hash) acc out h
      · rw [if_neg hs] at h
        obtain ⟨app, happ, hlen, hall⟩ := ih _ _ _ _ _ h
        refine ⟨hexToBase36 (hexByteVal (slots.getD (hexPairVal hash i % 9) [])) :: app,
          ?_, ?_, ?_⟩
        · rw [happ]
          simp
        · simp only [List.length_cons]
          omega
        · simp [List.all_cons, hall, hexToBase36_base36 _ (hexByteVal_lt _)]

theorem v2Loop_mono : ∀ fuel i slots hash acc out g, fuel ≤ g →
    v2Loop fuel i slots hash acc = some out → v2Loop g i slots hash acc = some out := by
  intro fuel
  induction fuel with
  | zero =>
    intro i slots hash acc out g _ hv
    simp [v2Loop] at hv
  | succ n ih =>
    intro i slots hash acc out g hfg hv
    obtain ⟨m, rfl⟩ : ∃ m, g = m + 1 := ⟨g - 1, by omega⟩
    simp only [v2Loop] at hv ⊢
    by_cases hi : 8 < i
    · rwa [if_pos hi] at hv ⊢
    · rw [if_neg hi] at hv ⊢
      by_cases hs : slots.getD (hexPairVal hash i % 9) [] = []
      · rw [if_pos hs] at hv ⊢
        exact ih _ _ _ _ _ m (by omega) hv
      · rw [if_neg hs] at hv ⊢
        exact ih _ _ _ _ _ m (by omega) hv


theorem v2Slots_zero (hash : List Char) : v2Slots 0 hash = ([], hash) := rfl

theorem v2Slots_succ (k : Nat) (hash : List Char) :
    v2Slots (k + 1) hash =
      ((hash.take 2) :: (v2Slots k (shaStrChars (shaStrChars hash))).1,
       (v2Slots k (shaStrChars (shaStrChars hash))).2) := rfl

theorem v2Loop_done (fuel i : Nat) (slots : List (List Char)) (hash acc : List Char)
    (h : 8 < i) : v2Loop (fuel + 1) i slots hash acc = some acc := by
  simp only [v2Loop]
  rw [if_pos h]

theorem v2Loop_rehash (fuel i : Nat) (slots : List (List Char)) (hash acc : List Char)
    (h1 : ¬ 8 < i) (h2 : slots.getD (hexPairVal hash i % 9) [] = []) :
    v2Loop (fuel + 1) i slots hash acc = v2Loop fuel i slots (shaStrChars hash) acc := by
  simp only [v2Loop]
  rw [if_neg h1, if_pos h2]

theorem v2Loop_consume (fuel i : Nat) (slots : List (List Char)) (hash acc : List Char)
    (h1 : ¬ 8 < i) (h2 : ¬ slots.getD (hexPairVal hash i % 9) [] = []) :
    v2Loop (fuel + 1) i slots hash acc =
      v2Loop fuel (i + 1) (slots.set (hexPairVal hash i % 9) []) hash
        (acc ++ [hexToBase36 (hexByteVal (slots.getD (hexPairVal hash i % 9) []))]) := by
  simp only [v2Loop]
  rw [if_neg h1, if_neg h2]


/-! Concrete evaluation of the derivation chain for the key `"test"`
(spec §8, address-derivation scenario), split into one lemma per hash so
each step is checked independently. -/

set_option maxRecDepth 20000 in
set_option maxHeartbeats 1000000 in
theorem shaE0 : sha256S "test" = "9f86d081884c7d659a2feaa0c55ad015a3bf4f1b2b0b822cd15d6c15b0f00a08" := by decide

set_option maxRecDepth 20000 in
set_option maxHeartbeats 1000000 in
theorem shaE1 : sha256S "9f86d081884c7d659a2feaa0c55ad015a3bf4f1b2b0b822cd15d6c15b0f00a08" = "7b3d979ca8330a94fa7e9e1b466d8b99e0bcdea1ec90596c0dcc8d7ef6b4300c" := by decide

set_option maxRecDepth 20000 in
set_option maxHeartbeats 1000000 in
theorem shaE2 : sha256S "7b3d979ca8330a94fa7e9e1b466d8b99e0bcdea1ec90596c0dcc8d7ef6b4300c" = "5b24f7aa99f1e1da5698a4f91ae0f4b45651a1b625c61ed669dd25ff5b937972" := by decide

set_option maxRecDepth 20000 in
set_option maxHeartbeats 1000000 in
theorem shaE3 : sha256S "5b24f7aa99f1e1da5698a4f91ae0f4b45651a1b625c61ed669dd25ff5b937972" = "2ace3a22375fdf5c60d78b612ccc70c88e31cfa7c3f9be023388980a2326f2fd" := by decide

set_option maxRecDepth 20000 in
set_option maxHeartbeats 1000000 in
theorem shaE4 : sha256S "2ace3a22375fdf5c60d78b612ccc70c88e31cfa7c3f9be023388980a2326f2fd" = "d32b3b15471a3ddfa23c5d6d147958e8e817f65878f3df30436e61fa639127b1" := by decide

set_option maxRecDepth 20000 in
set_option maxHeartbeats 1000000 in
theorem shaE5 : sha256S "d32b3b15471a3ddfa23c5d6d147958e8e817f65878f3df30436e61fa639127b1" = "c475204b01b18aa30282df8f80c602c13b2c9cc813b86a481a7b821bd80f075b" := by decide

set_option maxRecDepth 20000 in
set_option maxHeartbeats 1000000 in
theorem shaE6 : sha256S "c475204b01b18aa30282df8f80c602c13b2c9cc813b86a481a7b821bd80f075b" = "4e6a8d5354c5df23ebd7a7d8eba5061d02d28e000f7fadecf73d4b5bca40e793" := by decide

set_option maxRecDepth 20000 in
set_option maxHeartbeats 1000000 in
theorem shaE7 : sha256S "4e6a8d5354c5df23ebd7a7d8eba5061d02d28e000f7fadecf73d4b5bca40e793" = "cb90fcef122aaeed3ff1c881fd131172a55f86084cf513970ab80086d2d9fa4b" := by decide

set_option maxRecDepth 20000 in
set_option maxHeartbeats 1000000 in
theorem shaE8 : sha256S "cb90fcef122aaeed3ff1c881fd131172a55f86084cf513970ab80086d2d9fa4b" = "d36e4f43c5243135e038611e679adee4bf197290e84e0203727cb6761929e072" := by decide

set_option maxRecDepth 20000 in
set_option maxHeartbeats 1000000 in
theorem shaE9 : sha256S "d36e4f43c5243135e038611e679adee4bf197290e84e0203727cb6761929e072" = "bc89c6f72947bcd2f783d342a46cafcfccfcc2e7884a34f1cfe8f55bad2d200e" := by decide

set_option maxRecDepth 20000 in
set_option maxHeartbeats 1000000 in
theorem shaE10 : sha256S "bc89c6f72947bcd2f783d342a46cafcfccfcc2e7884a34f1cfe8f55bad2d200e" = "960741afdda2c23a81f5fbadd12e9e333f1eeddd23e3cda0129ca47bc4ae8b9c" := by decide

set_option maxRecDepth 20000 in
set_option maxHeartbeats 1000000 in
theorem shaE11 : sha256S "960741afdda2c23a81f5fbadd12e9e333f1eeddd23e3cda0129ca47bc4ae8b9c" = "3231e8e38f7220abc38a231b6761af796f730e562c77f31d69bfa97257fc4f0f" := by decide

set_option maxRecDepth 20000 in
set_option maxHeartbeats 1000000 in
theorem shaE12 : sha256S "3231e8e38f7220abc38a231b6761af796f730e562c77f31d69bfa97257fc4f0f" = "eb6a95801907a91eed26496317979d1b6f66d39d03b41f198615b83fcb340dab" := by decide

set_option maxRecDepth 20000 in
set_option maxHeartbeats 1000000 in
theorem shaE13 : sha256S "eb6a95801907a91eed26496317979d1b6f66d39d03b41f198615b83fcb340dab" = "135eb652d5a3b94b948fbc24193d7418687b38a0931e17aa594f15c09a6806c9" := by decide

set_option maxRecDepth 20000 in
set_option maxHeartbeats 1000000 in
theorem shaE14 : sha256S "135eb652d5a3b94b948fbc24193d7418687b38a0931e17aa594f15c09a6806c9" = "37a0ab5e2d6eead68076d2d54ef1f30584f87cc9b6b0f8f1fe080fbaa0fe772c" := by decide

set_option maxRecDepth 20000 in
set_option maxHeartbeats 1000000 in
theorem shaE15 : sha256S "37a0ab5e2d6eead68076d2d54ef1f30584f87cc9b6b0f8f1fe080fbaa0fe772c" = "1cdace1337aec80e99a74ec9c143ab578dd95e27a2bdf618b3c00ddf3026e516" := by decide

set_option maxRecDepth 20000 in
set_option maxHeartbeats 1000000 in
theorem shaE16 : sha256S "1cdace1337aec80e99a74ec9c143ab578dd95e27a2bdf618b3c00ddf3026e516" = "30827fa95a7893355d11f91bf966a053e54b8d38aba92177ed337f133735c95f" := by decide

set_option maxRecDepth 20000 in
set_option maxHeartbeats 1000000 in
theorem shaE17 : sha256S "30827fa95a7893355d11f91bf966a053e54b8d38aba92177ed337f133735c95f" = "7a9390fa0bc98f86d776ce113d5b504bcd24c23ab0c663ba6d33f769e3436290" := by decide

set_option maxRecDepth 20000 in
set_option maxHeartbeats 1000000 in
theorem shaE18 : sha256S "7a9390fa0bc98f86d776ce113d5b504bcd24c23ab0c663ba6d33f769e3436290" = "2bb9d6d53b0e75cda09322f93bda2896d28a0017d1d29e32b9f839008b49a01e" := by decide

set_option maxRecDepth 20000 in
set_option maxHeartbeats 1000000 in
theorem shaE19 : sha256S "2bb9d6d53b0e75cda09322f93bda2896d28a0017d1d29e32b9f839008b49a01e" = "5f3d6f3a69c4221f05e9e569090a0e2322f64f9e60d9756339c078427a5a8ac0" := by decide

set_option maxRecDepth 20000 in
set_option maxHeartbeats 1000000 in
theorem shaE20 : sha256S "5f3d6f3a69c4221f05e9e569090a0e2322f64f9e60d9756339c078427a5a8ac0" = "e0b8add49029a7d3d85d58f02cbfcb93aa3efccdc653223c92a7b3278b71ac97" := by decide

set_option maxRecDepth 20000 in
set_option maxHeartbeats 1000000 in
theorem shaE21 : sha256S "e0b8add49029a7d3d85d58f02cbfcb93aa3efccdc653223c92a7b3278b71ac97" = "72821021bee822c6150f82bad25142ed1360b484b053234031aa960c3cc9bf13" := by decide

set_option maxRecDepth 20000 in
set_option maxHeartbeats 1000000 in
theorem shaE22 : sha256S "72821021bee822c6150f82bad25142ed1360b484b053234031aa960c3cc9bf13" = "967c1a54b03fccaa70069882daf37e0b8492a3a2f660a5b6993b62c33df68ad6" := by decide

set_option maxRecDepth 20000 in
set_option maxHeartbeats 1000000 in
theorem shaE23 : sha256S "967c1a54b03fccaa70069882daf37e0b8492a3a2f660a5b6993b62c33df68ad6" = "78ce9e6e41c96835a8e33bc4844c7297b4d42f0692453ee8d228caff5bfc1917" := by decide

set_option maxRecDepth 20000 in
set_option maxHeartbeats 1000000 in
theorem shaE24 : sha256S "78ce9e6e41c96835a8e33bc4844c7297b4d42f0692453ee8d228caff5bfc1917" = "c6e58b8e8b379b5db6827b2d3a15752f3cab94cbf8e3e667087ebfec848ec241" := by decide

set_option maxRecDepth 20000 in
set_option maxHeartbeats 1000000 in
theorem shaE25 : sha256S "c6e58b8e8b379b5db6827b2d3a15752f3cab94cbf8e3e667087ebfec848ec241" = "45bc09b184e504e91de2e56110fa52e1961c8d084865c49ba0e74456ecd87d62" := by decide

set_option maxRecDepth 20000 in
set_option maxHeartbeats 1000000 in
theorem shaE26 : sha256S "45bc09b184e504e91de2e56110fa52e1961c8d084865c49ba0e74456ecd87d62" = "41be9b4d745a4e3e4486fbbb601b681102bc4973a1f3d181312a8a4eddd9c3f7" := by decide

set_option maxRecDepth 20000 in
set_option maxHeartbeats 1000000 in
theorem shaE27 : sha256S "41be9b4d745a4e3e4486fbbb601b681102bc4973a1f3d181312a8a4eddd9c3f7" = "e4bee3fc60c5b2f7bcc53057fc24c2daf6e55f9ecf09b302e3efbd6bf830a6d5" := by decide

set_option maxRecDepth 20000 in
set_option maxHeartbeats 1000000 in
theorem shaE28 : sha256S "e4bee3fc60c5b2f7bcc53057fc24c2daf6e55f9ecf09b302e3efbd6bf830a6d5" = "da275f111dae6ebcf43717c6f724894632ffbf65ca20658af53e880288f671b7" := by decide

set_option maxRecDepth 20000 in
set_option maxHeartbeats 1000000 in
theorem slotsE9 : v2Slots 0 (("5f3d6f3a69c4221f05e9e569090a0e2322f64f9e60d9756339c078427a5a8ac0").data) = ([], ("5f3d6f3a69c4221f05e9e569090a0e2322f64f9e60d9756339c078427a5a8ac0").data) := rfl

set_option maxRecDepth 20000 in
set_option maxHeartbeats 1000000 in
theorem slotsE8 : v2Slots 1 (("7a9390fa0bc98f86d776ce113d5b504bcd24c23ab0c663ba6d33f769e3436290").data) =
    ([(("7a9390fa0bc98f86d776ce113d5b504bcd24c23ab0c663ba6d33f769e3436290").data).take 2], ("5f3d6f3a69c4221f05e9e569090a0e2322f64f9e60d9756339c078427a5a8ac0").data) := by
  rw [show v2Slots 1 (("7a9390fa0bc98f86d776ce113d5b504bcd24c23ab0c663ba6d33f769e3436290").data) =
        (((("7a9390fa0bc98f86d776ce113d5b504bcd24c23ab0c663ba6d33f769e3436290").data).take 2) :: (v2Slots 0 (shaStrChars (shaStrChars (("7a9390fa0bc98f86d776ce113d5b504bcd24c23ab0c663ba6d33f769e3436290").data)))).1,
         (v2Slots 0 (shaStrChars (shaStrChars (("7a9390fa0bc98f86d776ce113d5b504bcd24c23ab0c663ba6d33f769e3436290").data)))).2) from v2Slots_succ 0 _]
  rw [show shaStrChars (("7a9390fa0bc98f86d776ce113d5b504bcd24c23ab0c663ba6d33f769e3436290").data) = ("2bb9d6d53b0e75cda09322f93bda2896d28a0017d1d29e32b9f839008b49a01e").data from congrArg String.data shaE18]
  rw [show shaStrChars (("2bb9d6d53b0e75cda09322f93bda2896d28a0017d1d29e32b9f839008b49a01e").data) = ("5f3d6f3a69c4221f05e9e569090a0e2322f64f9e60d9756339c078427a5a8ac0").data from congrArg String.data shaE19]
  rw [slotsE9]

set_option maxRecDepth 20000 in
set_option maxHeartbeats 1000000 in
theorem slotsE7 : v2Slots 2 (("1cdace1337aec80e99a74ec9c143ab578dd95e27a2bdf618b3c00ddf3026e516").data) =
    ([(("1cdace1337aec80e99a74ec9c143ab578dd95e27a2bdf618b3c00ddf3026e516").data).take 2, (("7a9390fa0bc98f86d776ce113d5b504bcd24c23ab0c663ba6d33f769e3436290").data).take 2], ("5f3d6f3a69c4221f05e9e569090a0e2322f64f9e60d9756339c078427a5a8ac0").data) := by
  rw [show v2Slots 2 (("1cdace1337aec80e99a74ec9c143ab578dd95e27a2bdf618b3c00ddf3026e516").data) =
        (((("1cdace1337aec80e99a74ec9c143ab578dd95e27a2bdf618b3c00ddf3026e516").data).take 2) :: (v2Slots 1 (shaStrChars (shaStrChars (("1cdace1337aec80e99a74ec9c143ab578dd95e27a2bdf618b3c00ddf3026e516").data)))).1,
         (v2Slots 1 (shaStrChars (shaStrChars (("1cdace1337aec80e99a74ec9c143ab578dd95e27a2bdf618b3c00ddf3026e516").data)))).2) from v2Slots_succ 1 _]
  rw [show shaStrChars (("1cdace1337aec80e99a74ec9c143ab578dd95e27a2bdf618b3c00ddf3026e516").data) = ("30827fa95a7893355d11f91bf966a053e54b8d38aba92177ed337f133735c95f").data from congrArg String.data shaE16]
  rw [show shaStrChars (("30827fa95a7893355d11f91bf966a053e54b8d38aba92177ed337f133735c95f").data) = ("7a9390fa0bc98f86d776ce113d5b504bcd24c23ab0c663ba6d33f769e3436290").data from congrArg String.data shaE17]
  rw [slotsE8]

set_option maxRecDepth 20000 in
set_option maxHeartbeats 1000000 in
theorem slotsE6 : v2Slots 3 (("135eb652d5a3b94b948fbc24193d7418687b38a0931e17aa594f15c09a6806c9").data) =
    ([(("135eb652d5a3b94b948fbc24193d7418687b38a0931e17aa594f15c09a6806c9").data).take 2, (("1cdace1337aec80e99a74ec9c143ab578dd95e27a2bdf618b3c00ddf3026e516").data).take 2, (("7a9390fa0bc98f86d776ce113d5b504bcd24c23ab0c663ba6d33f769e3436290").data).take 2], ("5f3d6f3a69c4221f05e9e569090a0e2322f64f9e60d9756339c078427a5a8ac0").data) := by
  rw [show v2Slots 3 (("135eb652d5a3b94b948fbc24193d7418687b38a0931e17aa594f15c09a6806c9").data) =
        (((("135eb652d5a3b94b948fbc24193d7418687b38a0931e17aa594f15c09a6806c9").data).take 2) :: (v2Slots 2 (shaStrChars (shaStrChars (("135eb652d5a3b94b948fbc24193d7418687b38a0931e17aa594f15c09a6806c9").data)))).1,
         (v2Slots 2 (shaStrChars (shaStrChars (("135eb652d5a3b94b948fbc24193d7418687b38a0931e17aa594f15c09a6806c9").data)))).2) from v2Slots_succ 2 _]
  rw [show shaStrChars (("135eb652d5a3b94b948fbc24193d7418687b38a0931e17aa594f15c09a6806c9").data) = ("37a0ab5e2d6eead68076d2d54ef1f30584f87cc9b6b0f8f1fe080fbaa0fe772c").data from congrArg String.data shaE14]
  rw [show shaStrChars (("37a0ab5e2d6eead68076d2d54ef1f30584f87cc9b6b0f8f1fe080fbaa0fe772c").data) = ("1cdace1337aec80e99a74ec9c143ab578dd95e27a2bdf618b3c00ddf3026e516").data from congrArg String.data shaE15]
  rw [slotsE7]

set_option maxRecDepth 20000 in
set_option maxHeartbeats 1000000 in
theorem slotsE5 : v2Slots 4 (("3231e8e38f7220abc38a231b6761af796f730e562c77f31d69bfa97257fc4f0f").data) =
    ([(("3231e8e38f7220abc38a231b6761af796f730e562c77f31d69bfa97257fc4f0f").data).take 2, (("135eb652d5a3b94b948fbc24193d7418687b38a0931e17aa594f15c09a6806c9").data).take 2, (("1cdace1337aec80e99a74ec9c143ab578dd95e27a2bdf618b3c00ddf3026e516").data).take 2, (("7a9390fa0bc98f86d776ce113d5b504bcd24c23ab0c663ba6d33f769e3436290").data).take 2], ("5f3d6f3a69c4221f05e9e569090a0e2322f64f9e60d9756339c078427a5a8ac0").data) := by
  rw [show v2Slots 4 (("3231e8e38f7220abc38a231b6761af796f730e562c77f31d69bfa97257fc4f0f").data) =
        (((("3231e8e38f7220abc38a231b6761af796f730e562c77f31d69bfa97257fc4f0f").data).take 2) :: (v2Slots 3 (shaStrChars (shaStrChars (("3231e8e38f7220abc38a231b6761af796f730e562c77f31d69bfa97257fc4f0f").data)))).1,
         (v2Slots 3 (shaStrChars (shaStrChars (("3231e8e38f7220abc38a231b6761af796f730e562c77f31d69bfa97257fc4f0f").data)))).2) from v2Slots_succ 3 _]
  rw [show shaStrChars (("3231e8e38f7220abc38a231b6761af796f730e562c77f31d69bfa97257fc4f0f").data) = ("eb6a95801907a91eed26496317979d1b6f66d39d03b41f198615b83fcb340dab").data from congrArg String.data shaE12]
  rw [show shaStrChars (("eb6a95801907a91eed26496317979d1b6f66d39d03b41f198615b83fcb340dab").data) = ("135eb652d5a3b94b948fbc24193d7418687b38a0931e17aa594f15c09a6806c9").data from congrArg String.data shaE13]
  rw [slotsE6]

set_option maxRecDepth 20000 in
set_option maxHeartbeats 1000000 in
theorem slotsE4 : v2Slots 5 (("bc89c6f72947bcd2f783d342a46cafcfccfcc2e7884a34f1cfe8f55bad2d200e").data) =
    ([(("bc89c6f72947bcd2f783d342a46cafcfccfcc2e7884a34f1cfe8f55bad2d200e").data).take 2, (("3231e8e38f7220abc38a231b6761af796f730e562c77f31d69bfa97257fc4f0f").data).take 2, (("135eb652d5a3b94b948fbc24193d7418687b38a0931e17aa594f15c09a6806c9").data).take 2, (("1cdace1337aec80e99a74ec9c143ab578dd95e27a2bdf618b3c00ddf3026e516").data).take 2, (("7a9390fa0bc98f86d776ce113d5b504bcd24c23ab0c663ba6d33f769e3436290").data).take 2], ("5f3d6f3a69c4221f05e9e569090a0e2322f64f9e60d9756339c078427a5a8ac0").data) := by
  rw [show v2Slots 5 (("bc89c6f72947bcd2f783d342a46cafcfccfcc2e7884a34f1cfe8f55bad2d200e").data) =
        (((("bc89c6f72947bcd2f783d342a46cafcfccfcc2e7884a34f1cfe8f55bad2d200e").data).take 2) :: (v2Slots 4 (shaStrChars (shaStrChars (("bc89c6f72947bcd2f783d342a46cafcfccfcc2e7884a34f1cfe8f55bad2d200e").data)))).1,
         (v2Slots 4 (shaStrChars (shaStrChars (("bc89c6f72947bcd2f783d342a46cafcfccfcc2e7884a34f1cfe8f55bad2d200e").data)))).2) from v2Slots_succ 4 _]
  rw [show shaStrChars (("bc89c6f72947bcd2f783d342a46cafcfccfcc2e7884a34f1cfe8f55bad2d200e").data) = ("960741afdda2c23a81f5fbadd12e9e333f1eeddd23e3cda0129ca47bc4ae8b9c").data from congrArg String.data shaE10]
  rw [show shaStrChars (("960741afdda2c23a81f5fbadd12e9e333f1eeddd23e3cda0129ca47bc4ae8b9c").data) = ("3231e8e38f7220abc38a231b6761af796f730e562c77f31d69bfa97257fc4f0f").data from congrArg String.data shaE11]
  rw [slotsE5]

set_option maxRecDepth 20000 in
set_option maxHeartbeats 1000000 in
theorem slotsE3 : v2Slots 6 (("cb90fcef122aaeed3ff1c881fd131172a55f86084cf513970ab80086d2d9fa4b").data) =
    ([(("cb90fcef122aaeed3ff1c881fd131172a55f86084cf513970ab80086d2d9fa4b").data).take 2, (("bc89c6f72947bcd2f783d342a46cafcfccfcc2e7884a34f1cfe8f55bad2d200e").data).take 2, (("3231e8e38f7220abc38a231b6761af796f730e562c77f31d69bfa97257fc4f0f").data).take 2, (("135eb652d5a3b94b948fbc24193d7418687b38a0931e17aa594f15c09a6806c9").data).take 2, (("1cdace1337aec80e99a74ec9c143ab578dd95e27a2bdf618b3c00ddf3026e516").data).take 2, (("7a9390fa0bc98f86d776ce113d5b504bcd24c23ab0c663ba6d33f769e3436290").data).take 2], ("5f3d6f3a69c4221f05e9e569090a0e2322f64f9e60d9756339c078427a5a8ac0").data) := by
  rw [show v2Slots 6 (("cb90fcef122aaeed3ff1c881fd131172a55f86084cf513970ab80086d2d9fa4b").data) =
        (((("cb90fcef122aaeed3ff1c881fd131172a55f86084cf513970ab80086d2d9fa4b").data).take 2) :: (v2Slots 5 (shaStrChars (shaStrChars (("cb90fcef122aaeed3ff1c881fd131172a55f86084cf513970ab80086d2d9fa4b").data)))).1,
         (v2Slots 5 (shaStrChars (shaStrChars (("cb90fcef122aaeed3ff1c881fd131172a55f86084cf513970ab80086d2d9fa4b").data)))).2) from v2Slots_succ 5 _]
  rw [show shaStrChars (("cb90fcef122aaeed3ff1c881fd131172a55f86084cf513970ab80086d2d9fa4b").data) = ("d36e4f43c5243135e038611e679adee4bf197290e84e0203727cb6761929e072").data from congrArg String.data shaE8]
  rw [show shaStrChars (("d36e4f43c5243135e038611e679adee4bf197290e84e0203727cb6761929e072").data) = ("bc89c6f72947bcd2f783d342a46cafcfccfcc2e7884a34f1cfe8f55bad2d200e").data from congrArg String.data shaE9]
  rw [slotsE4]

set_option maxRecDepth 20000 in
set_option maxHeartbeats 1000000 in
theorem slotsE2 : v2Slots 7 (("c475204b01b18aa30282df8f80c602c13b2c9cc813b86a481a7b821bd80f075b").data) =
    ([(("c475204b01b18aa30282df8f80c602c13b2c9cc813b86a481a7b821bd80f075b").data).take 2, (("cb90fcef122aaeed3ff1c881fd131172a55f86084cf513970ab80086d2d9fa4b").data).take 2, (("bc89c6f72947bcd2f783d342a46cafcfccfcc2e7884a34f1cfe8f55bad2d200e").data).take 2, (("3231e8e38f7220abc38a231b6761af796f730e562c77f31d69bfa97257fc4f0f").data).take 2, (("135eb652d5a3b94b948fbc24193d7418687b38a0931e17aa594f15c09a6806c9").data).take 2, (("1cdace1337aec80e99a74ec9c143ab578dd95e27a2bdf618b3c00ddf3026e516").data).take 2, (("7a9390fa0bc98f86d776ce113d5b504bcd24c23ab0c663ba6d33f769e3436290").data).take 2], ("5f3d6f3a69c4221f05e9e569090a0e2322f64f9e60d9756339c078427a5a8ac0").data) := by
  rw [show v2Slots 7 (("c475204b01b18aa30282df8f80c602c13b2c9cc813b86a481a7b821bd80f075b").data) =
        (((("c475204b01b18aa30282df8f80c602c13b2c9cc813b86a481a7b821bd80f075b").data).take 2) :: (v2Slots 6 (shaStrChars (shaStrChars (("c475204b01b18aa30282df8f80c602c13b2c9cc813b86a481a7b821bd80f075b").data)))).1,
         (v2Slots 6 (shaStrChars (shaStrChars (("c475204b01b18aa30282df8f80c602c13b2c9cc813b86a481a7b821bd80f075b").data)))).2) from v2Slots_succ 6 _]
  rw [show shaStrChars (("c475204b01b18aa30282df8f80c602c13b2c9cc813b86a481a7b821bd80f075b").data) = ("4e6a8d5354c5df23ebd7a7d8eba5061d02d28e000f7fadecf73d4b5bca40e793").data from congrArg String.data shaE6]
  rw [show shaStrChars (("4e6a8d5354c5df23ebd7a7d8eba5061d02d28e000f7fadecf73d4b5bca40e793").data) = ("cb90fcef122aaeed3ff1c881fd131172a55f86084cf513970ab80086d2d9fa4b").data from congrArg String.data shaE7]
  rw [slotsE3]

set_option maxRecDepth 20000 in
set_option maxHeartbeats 1000000 in
theorem slotsE1 : v2Slots 8 (("2ace3a22375fdf5c60d78b612ccc70c88e31cfa7c3f9be023388980a2326f2fd").data) =
    ([(("2ace3a22375fdf5c60d78b612ccc70c88e31cfa7c3f9be023388980a2326f2fd").data).take 2, (("c475204b01b18aa30282df8f80c602c13b2c9cc813b86a481a7b821bd80f075b").data).take 2, (("cb90fcef122aaeed3ff1c881fd131172a55f86084cf513970ab80086d2d9fa4b").data).take 2, (("bc89c6f72947bcd2f783d342a46cafcfccfcc2e7884a34f1cfe8f55bad2d200e").data).take 2, (("3231e8e38f7220abc38a231b6761af796f730e562c77f31d69bfa97257fc4f0f").data).take 2, (("135eb652d5a3b94b948fbc24193d7418687b38a0931e17aa594f15c09a6806c9").data).take 2, (("1cdace1337aec80e99a74ec9c143ab578dd95e27a2bdf618b3c00ddf3026e516").data).take 2, (("7a9390fa0bc98f86d776ce113d5b504bcd24c23ab0c663ba6d33f769e3436290").data).take 2], ("5f3d6f3a69c4221f05e9e569090a0e2322f64f9e60d9756339c078427a5a8ac0").data) := by
  rw [show v2Slots 8 (("2ace3a22375fdf5c60d78b612ccc70c88e31cfa7c3f9be023388980a2326f2fd").data) =
        (((("2ace3a22375fdf5c60d78b612ccc70c88e31cfa7c3f9be023388980a2326f2fd").data).take 2) :: (v2Slots 7 (shaStrChars (shaStrChars (("2ace3a22375fdf5c60d78b612ccc70c88e31cfa7c3f9be023388980a2326f2fd").data)))).1,
         (v2Slots 7 (shaStrChars (shaStrChars (("2ace3a22375fdf5c60d78b612ccc70c88e31cfa7c3f9be023388980a2326f2fd").data)))).2) from v2Slots_succ 7 _]
  rw [show shaStrChars (("2ace3a22375fdf5c60d78b612ccc70c88e31cfa7c3f9be023388980a2326f2fd").data) = ("d32b3b15471a3ddfa23c5d6d147958e8e817f65878f3df30436e61fa639127b1").data from congrArg String.data shaE4]
  rw [show shaStrChars (("d32b3b15471a3ddfa23c5d6d147958e8e817f65878f3df30436e61fa639127b1").data) = ("c475204b01b18aa30282df8f80c602c13b2c9cc813b86a481a7b821bd80f075b").data from congrArg String.data shaE5]
  rw [slotsE2]

set_option maxRecDepth 20000 in
set_option maxHeartbeats 1000000 in
theorem slotsE0 : v2Slots 9 (("7b3d979ca8330a94fa7e9e1b466d8b99e0bcdea1ec90596c0dcc8d7ef6b4300c").data) =
    ([(("7b3d979ca8330a94fa7e9e1b466d8b99e0bcdea1ec90596c0dcc8d7ef6b4300c").data).take 2, (("2ace3a22375fdf5c60d78b612ccc70c88e31cfa7c3f9be023388980a2326f2fd").data).take 2, (("c475204b01b18aa30282df8f80c602c13b2c9cc813b86a481a7b821bd80f075b").data).take 2, (("cb90fcef122aaeed3ff1c881fd131172a55f86084cf513970ab80086d2d9fa4b").data).take 2, (("bc89c6f72947bcd2f783d342a46cafcfccfcc2e7884a34f1cfe8f55bad2d200e").data).take 2, (("3231e8e38f7220abc38a231b6761af796f730e562c77f31d69bfa97257fc4f0f").data).take 2, (("135eb652d5a3b94b948fbc24193d7418687b38a0931e17aa594f15c09a6806c9").data).take 2, (("1cdace1337aec80e99a74ec9c143ab578dd95e27a2bdf618b3c00ddf3026e516").data).take 2, (("7a9390fa0bc98f86d776ce113d5b504bcd24c23ab0c663ba6d33f769e3436290").data).take 2], ("5f3d6f3a69c4221f05e9e569090a0e2322f64f9e60d9756339c078427a5a8ac0").data) := by
  rw [show v2Slots 9 (("7b3d979ca8330a94fa7e9e1b466d8b99e0bcdea1ec90596c0dcc8d7ef6b4300c").data) =
        (((("7b3d979ca8330a94fa7e9e1b466d8b99e0bcdea1ec90596c0dcc8d7ef6b4300c").data).take 2) :: (v2Slots 8 (shaStrChars (shaStrChars (("7b3d979ca8330a94fa7e9e1b466d8b99e0bcdea1ec90596c0dcc8d7ef6b4300c").data)))).1,
         (v2Slots 8 (shaStrChars (shaStrChars (("7b3d979ca8330a94fa7e9e1b466d8b99e0bcdea1ec90596c0dcc8d7ef6b4300c").data)))).2) from v2Slots_succ 8 _]
  rw [show shaStrChars (("7b3d979ca8330a94fa7e9e1b466d8b99e0bcdea1ec90596c0dcc8d7ef6b4300c").data) = ("5b24f7aa99f1e1da5698a4f91ae0f4b45651a1b625c61ed669dd25ff5b937972").data from congrArg String.data shaE2]
  rw [show shaStrChars (("5b24f7aa99f1e1da5698a4f91ae0f4b45651a1b625c61ed669dd25ff5b937972").data) = ("2ace3a22375fdf5c60d78b612ccc70c88e31cfa7c3f9be023388980a2326f2fd").data from congrArg String.data shaE3]
  rw [slotsE1]

set_option maxRecDepth 20000 in
set_option maxHeartbeats 1000000 in
theorem vstepE0 :
    v2Loop 40 0 [['7', 'b'], ['2', 'a'], ['c', '4'], ['c', 'b'], ['b', 'c'], ['3', '2'], ['1', '3'], ['1', 'c'], ['7', 'a']] (("5f3d6f3a69c4221f05e9e569090a0e2322f64f9e60d9756339c078427a5a8ac0").data) ['t'] =
      v2Loop 39 1 [['7', 'b'], ['2', 'a'], ['c', '4'], ['c', 'b'], ['b', 'c'], [], ['1', '3'], ['1', 'c'], ['7', 'a']] (("5f3d6f3a69c4221f05e9e569090a0e2322f64f9e60d9756339c078427a5a8ac0").data) ['t', '7'] := by
  rw [show (40 : Nat) = 39 + 1 from rfl,
      v2Loop_consume 39 0 [['7', 'b'], ['2', 'a'], ['c', '4'], ['c', 'b'], ['b', 'c'], ['3', '2'], ['1', '3'], ['1', 'c'], ['7', 'a']] (("5f3d6f3a69c4221f05e9e569090a0e2322f64f9e60d9756339c078427a5a8ac0").data) ['t'] (by decide) (by decide)]
  congr 1

set_option maxRecDepth 20000 in
set_option maxHeartbeats 1000000 in
theorem vstepE1 :
    v2Loop 39 1 [['7', 'b'], ['2', 'a'], ['c', '4'], ['c', 'b'], ['b', 'c'], [], ['1', '3'], ['1', 'c'], ['7', 'a']] (("5f3d6f3a69c4221f05e9e569090a0e2322f64f9e60d9756339c078427a5a8ac0").data) ['t', '7'] =
      v2Loop 38 2 [['7', 'b'], ['2', 'a'], ['c', '4'], ['c', 'b'], ['b', 'c'], [], ['1', '3'], [], ['7', 'a']] (("5f3d6f3a69c4221f05e9e569090a0e2322f64f9e60d9756339c078427a5a8ac0").data) ['t', '7', '4'] := by
  rw [show (39 : Nat) = 38 + 1 from rfl,
      v2Loop_consume 38 1 [['7', 'b'], ['2', 'a'], ['c', '4'], ['c', 'b'], ['b', 'c'], [], ['1', '3'], ['1', 'c'], ['7', 'a']] (("5f3d6f3a69c4221f05e9e569090a0e2322f64f9e60d9756339c078427a5a8ac0").data) ['t', '7'] (by decide) (by decide)]
  congr 1

set_option maxRecDepth 20000 in
set_option maxHeartbeats 1000000 in
theorem vstepE2 :
    v2Loop 38 2 [['7', 'b'], ['2', 'a'], ['c', '4'], ['c', 'b'], ['b', 'c'], [], ['1', '3'], [], ['7', 'a']] (("5f3d6f3a69c4221f05e9e569090a0e2322f64f9e60d9756339c078427a5a8ac0").data) ['t', '7', '4'] =
      v2Loop 37 3 [['7', 'b'], ['2', 'a'], ['c', '4'], [], ['b', 'c'], [], ['1', '3'], [], ['7', 'a']] (("5f3d6f3a69c4221f05e9e569090a0e2322f64f9e60d9756339c078427a5a8ac0").data) ['t', '7', '4', 't'] := by
  rw [show (38 : Nat) = 37 + 1 from rfl,
      v2Loop_consume 37 2 [['7', 'b'], ['2', 'a'], ['c', '4'], ['c', 'b'], ['b', 'c'], [], ['1', '3'], [], ['7', 'a']] (("5f3d6f3a69c4221f05e9e569090a0e2322f64f9e60d9756339c078427a5a8ac0").data) ['t', '7', '4'] (by decide) (by decide)]
  congr 1

set_option maxRecDepth 20000 in
set_option maxHeartbeats 1000000 in
theorem vstepE3 :
    v2Loop 37 3 [['7', 'b'], ['2', 'a'], ['c', '4'], [], ['b', 'c'], [], ['1', '3'], [], ['7', 'a']] (("5f3d6f3a69c4221f05e9e569090a0e2322f64f9e60d9756339c078427a5a8ac0").data) ['t', '7', '4', 't'] =
      v2Loop 36 4 [['7', 'b'], ['2', 'a'], ['c', '4'], [], [], [], ['1', '3'], [], ['7', 'a']] (("5f3d6f3a69c4221f05e9e569090a0e2322f64f9e60d9756339c078427a5a8ac0").data) ['t', '7', '4', 't', 'q'] := by
  rw [show (37 : Nat) = 36 + 1 from rfl,
      v2Loop_consume 36 3 [['7', 'b'], ['2', 'a'], ['c', '4'], [], ['b', 'c'], [], ['1', '3'], [], ['7', 'a']] (("5f3d6f3a69c4221f05e9e569090a0e2322f64f9e60d9756339c078427a5a8ac0").data) ['t', '7', '4', 't'] (by decide) (by decide)]
  congr 1

set_option maxRecDepth 20000 in
set_option maxHeartbeats 1000000 in
theorem vstepE4 :
    v2Loop 36 4 [['7', 'b'], ['2', 'a'], ['c', '4'], [], [], [], ['1', '3'], [], ['7', 'a']] (("5f3d6f3a69c4221f05e9e569090a0e2322f64f9e60d9756339c078427a5a8ac0").data) ['t', '7', '4', 't', 'q'] =
      v2Loop 35 5 [['7', 'b'], ['2', 'a'], ['c', '4'], [], [], [], [], [], ['7', 'a']] (("5f3d6f3a69c4221f05e9e569090a0e2322f64f9e60d9756339c078427a5a8ac0").data) ['t', '7', '4', 't', 'q', '2'] := by
  rw [show (36 : Nat) = 35 + 1 from rfl,
      v2Loop_consume 35 4 [['7', 'b'], ['2', 'a'], ['c', '4'], [], [], [], ['1', '3'], [], ['7', 'a']] (("5f3d6f3a69c4221f05e9e569090a0e2322f64f9e60d9756339c078427a5a8ac0").data) ['t', '7', '4', 't', 'q'] (by decide) (by decide)]
  congr 1

set_option maxRecDepth 20000 in
set_option maxHeartbeats 1000000 in
theorem vstepE5 :
    v2Loop 35 5 [['7', 'b'], ['2', 'a'], ['c', '4'], [], [], [], [], [], ['7', 'a']] (("5f3d6f3a69c4221f05e9e569090a0e2322f64f9e60d9756339c078427a5a8ac0").data) ['t', '7', '4', 't', 'q', '2'] =
      v2Loop 34 5 [['7', 'b'], ['2', 'a'], ['c', '4'], [], [], [], [], [], ['7', 'a']] (("e0b8add49029a7d3d85d58f02cbfcb93aa3efccdc653223c92a7b3278b71ac97").data) ['t', '7', '4', 't', 'q', '2'] := by
  rw [show (35 : Nat) = 34 + 1 from rfl,
      v2Loop_rehash 34 5 [['7', 'b'], ['2', 'a'], ['c', '4'], [], [], [], [], [], ['7', 'a']] (("5f3d6f3a69c4221f05e9e569090a0e2322f64f9e60d9756339c078427a5a8ac0").data) ['t', '7', '4', 't', 'q', '2'] (by decide) (by decide)]
  rw [show shaStrChars (("5f3d6f3a69c4221f05e9e569090a0e2322f64f9e60d9756339c078427a5a8ac0").data) = ("e0b8add49029a7d3d85d58f02cbfcb93aa3efccdc653223c92a7b3278b71ac97").data from congrArg String.data shaE20]

set_option maxRecDepth 20000 in
set_option maxHeartbeats 1000000 in
theorem vstepE6 :
    v2Loop 34 5 [['7', 'b'], ['2', 'a'], ['c', '4'], [], [], [], [], [], ['7', 'a']] (("e0b8add49029a7d3d85d58f02cbfcb93aa3efccdc653223c92a7b3278b71ac97").data) ['t', '7', '4', 't', 'q', '2'] =
      v2Loop 33 5 [['7', 'b'], ['2', 'a'], ['c', '4'], [], [], [], [], [], ['7', 'a']] (("72821021bee822c6150f82bad25142ed1360b484b053234031aa960c3cc9bf13").data) ['t', '7', '4', 't', 'q', '2'] := by
  rw [show (34 : Nat) = 33 + 1 from rfl,
      v2Loop_rehash 33 5 [['7', 'b'], ['2', 'a'], ['c', '4'], [], [], [], [], [], ['7', 'a']] (("e0b8add49029a7d3d85d58f02cbfcb93aa3efccdc653223c92a7b3278b71ac97").data) ['t', '7', '4', 't', 'q', '2'] (by decide) (by decide)]
  rw [show shaStrChars (("e0b8add49029a7d3d85d58f02cbfcb93aa3efccdc653223c92a7b3278b71ac97").data) = ("72821021bee822c6150f82bad25142ed1360b484b053234031aa960c3cc9bf13").data from congrArg String.data shaE21]

set_option maxRecDepth 20000 in
set_option maxHeartbeats 1000000 in
theorem vstepE7 :
    v2Loop 33 5 [['7', 'b'], ['2', 'a'], ['c', '4'], [], [], [], [], [], ['7', 'a']] (("72821021bee822c6150f82bad25142ed1360b484b053234031aa960c3cc9bf13").data) ['t', '7', '4', 't', 'q', '2'] =
      v2Loop 32 5 [['7', 'b'], ['2', 'a'], ['c', '4'], [], [], [], [], [], ['7', 'a']] (("967c1a54b03fccaa70069882daf37e0b8492a3a2f660a5b6993b62c33df68ad6").data) ['t', '7', '4', 't', 'q', '2'] := by
  rw [show (33 : Nat) = 32 + 1 from rfl,
      v2Loop_rehash 32 5 [['7', 'b'], ['2', 'a'], ['c', '4'], [], [], [], [], [], ['7', 'a']] (("72821021bee822c6150f82bad25142ed1360b484b053234031aa960c3cc9bf13").data) ['t', '7', '4', 't', 'q', '2'] (by decide) (by decide)]
  rw [show shaStrChars (("72821021bee822c6150f82bad25142ed1360b484b053234031aa960c3cc9bf13").data) = ("967c1a54b03fccaa70069882daf37e0b8492a3a2f660a5b6993b62c33df68ad6").data from congrArg String.data shaE22]

set_option maxRecDepth 20000 in
set_option maxHeartbeats 1000000 in
theorem vstepE8 :
    v2Loop 32 5 [['7', 'b'], ['2', 'a'], ['c', '4'], [], [], [], [], [], ['7', 'a']] (("967c1a54b03fccaa70069882daf37e0b8492a3a2f660a5b6993b62c33df68ad6").data) ['t', '7', '4', 't', 'q', '2'] =
      v2Loop 31 6 [[], ['2', 'a'], ['c', '4'], [], [], [], [], [], ['7', 'a']] (("967c1a54b03fccaa70069882daf37e0b8492a3a2f660a5b6993b62c33df68ad6").data) ['t', '7', '4', 't', 'q', '2', 'h'] := by
  rw [show (32 : Nat) = 31 + 1 from rfl,
      v2Loop_consume 31 5 [['7', 'b'], ['2', 'a'], ['c', '4'], [], [], [], [], [], ['7', 'a']] (("967c1a54b03fccaa70069882daf37e0b8492a3a2f660a5b6993b62c33df68ad6").data) ['t', '7', '4', 't', 'q', '2'] (by decide) (by decide)]
  congr 1

set_option maxRecDepth 20000 in
set_option maxHeartbeats 1000000 in
theorem vstepE9 :
    v2Loop 31 6 [[], ['2', 'a'], ['c', '4'], [], [], [], [], [], ['7', 'a']] (("967c1a54b03fccaa70069882daf37e0b8492a3a2f660a5b6993b62c33df68ad6").data) ['t', '7', '4', 't', 'q', '2', 'h'] =
      v2Loop 30 6 [[], ['2', 'a'], ['c', '4'], [], [], [], [], [], ['7', 'a']] (("78ce9e6e41c96835a8e33bc4844c7297b4d42f0692453ee8d228caff5bfc1917").data) ['t', '7', '4', 't', 'q', '2', 'h'] := by
  rw [show (31 : Nat) = 30 + 1 from rfl,
      v2Loop_rehash 30 6 [[], ['2', 'a'], ['c', '4'], [], [], [], [], [], ['7', 'a']] (("967c1a54b03fccaa70069882daf37e0b8492a3a2f660a5b6993b62c33df68ad6").data) ['t', '7', '4', 't', 'q', '2', 'h'] (by decide) (by decide)]
  rw [show shaStrChars (("967c1a54b03fccaa70069882daf37e0b8492a3a2f660a5b6993b62c33df68ad6").data) = ("78ce9e6e41c96835a8e33bc4844c7297b4d42f0692453ee8d228caff5bfc1917").data from congrArg String.data shaE23]

set_option maxRecDepth 20000 in
set_option maxHeartbeats 1000000 in
theorem vstepE10 :
    v2Loop 30 6 [[], ['2', 'a'], ['c', '4'], [], [], [], [], [], ['7', 'a']] (("78ce9e6e41c96835a8e33bc4844c7297b4d42f0692453ee8d228caff5bfc1917").data) ['t', '7', '4', 't', 'q', '2', 'h'] =
      v2Loop 29 6 [[], ['2', 'a'], ['c', '4'], [], [], [], [], [], ['7', 'a']] (("c6e58b8e8b379b5db6827b2d3a15752f3cab94cbf8e3e667087ebfec848ec241").data) ['t', '7', '4', 't', 'q', '2', 'h'] := by
  rw [show (30 : Nat) = 29 + 1 from rfl,
      v2Loop_rehash 29 6 [[], ['2', 'a'], ['c', '4'], [], [], [], [], [], ['7', 'a']] (("78ce9e6e41c96835a8e33bc4844c7297b4d42f0692453ee8d228caff5bfc1917").data) ['t', '7', '4', 't', 'q', '2', 'h'] (by decide) (by decide)]
  rw [show shaStrChars (("78ce9e6e41c96835a8e33bc4844c7297b4d42f0692453ee8d228caff5bfc1917").data) = ("c6e58b8e8b379b5db6827b2d3a15752f3cab94cbf8e3e667087ebfec848ec241").data from congrArg String.data shaE24]

set_option maxRecDepth 20000 in
set_option maxHeartbeats 1000000 in
theorem vstepE11 :
    v2Loop 29 6 [[], ['2', 'a'], ['c', '4'], [], [], [], [], [], ['7', 'a']] (("c6e58b8e8b379b5db6827b2d3a15752f3cab94cbf8e3e667087ebfec848ec241").data) ['t', '7', '4', 't', 'q', '2', 'h'] =
      v2Loop 28 7 [[], ['2', 'a'], [], [], [], [], [], [], ['7', 'a']] (("c6e58b8e8b379b5db6827b2d3a15752f3cab94cbf8e3e667087ebfec848ec241").data) ['t', '7', '4', 't', 'q', '2', 'h', 's'] := by
  rw [show (29 : Nat) = 28 + 1 from rfl,
      v2Loop_consume 28 6 [[], ['2', 'a'], ['c', '4'], [], [], [], [], [], ['7', 'a']] (("c6e58b8e8b379b5db6827b2d3a15752f3cab94cbf8e3e667087ebfec848ec241").data) ['t', '7', '4', 't', 'q', '2', 'h'] (by decide) (by decide)]
  congr 1

set_option maxRecDepth 20000 in
set_option maxHeartbeats 1000000 in
theorem vstepE12 :
    v2Loop 28 7 [[], ['2', 'a'], [], [], [], [], [], [], ['7', 'a']] (("c6e58b8e8b379b5db6827b2d3a15752f3cab94cbf8e3e667087ebfec848ec241").data) ['t', '7', '4', 't', 'q', '2', 'h', 's'] =
      v2Loop 27 7 [[], ['2', 'a'], [], [], [], [], [], [], ['7', 'a']] (("45bc09b184e504e91de2e56110fa52e1961c8d084865c49ba0e74456ecd87d62").data) ['t', '7', '4', 't', 'q', '2', 'h', 's'] := by
  rw [show (28 : Nat) = 27 + 1 from rfl,
      v2Loop_rehash 27 7 [[], ['2', 'a'], [], [], [], [], [], [], ['7', 'a']] (("c6e58b8e8b379b5db6827b2d3a15752f3cab94cbf8e3e667087ebfec848ec241").data) ['t', '7', '4', 't', 'q', '2', 'h', 's'] (by decide) (by decide)]
  rw [show shaStrChars (("c6e58b8e8b379b5db6827b2d3a15752f3cab94cbf8e3e667087ebfec848ec241").data) = ("45bc09b184e504e91de2e56110fa52e1961c8d084865c49ba0e74456ecd87d62").data from congrArg String.data shaE25]

set_option maxRecDepth 20000 in
set_option maxHeartbeats 1000000 in
theorem vstepE13 :
    v2Loop 27 7 [[], ['2', 'a'], [], [], [], [], [], [], ['7', 'a']] (("45bc09b184e504e91de2e56110fa52e1961c8d084865c49ba0e74456ecd87d62").data) ['t', '7', '4', 't', 'q', '2', 'h', 's'] =
      v2Loop 26 8 [[], ['2', 'a'], [], [], [], [], [], [], []] (("45bc09b184e504e91de2e56110fa52e1961c8d084865c49ba0e74456ecd87d62").data) ['t', '7', '4', 't', 'q', '2', 'h', 's', 'h'] := by
  rw [show (27 : Nat) = 26 + 1 from rfl,
      v2Loop_consume 26 7 [[], ['2', 'a'], [], [], [], [], [], [], ['7', 'a']] (("45bc09b184e504e91de2e56110fa52e1961c8d084865c49ba0e74456ecd87d62").data) ['t', '7', '4', 't', 'q', '2', 'h', 's'] (by decide) (by decide)]
  congr 1

set_option maxRecDepth 20000 in
set_option maxHeartbeats 1000000 in
theorem vstepE14 :
    v2Loop 26 8 [[], ['2', 'a'], [], [], [], [], [], [], []] (("45bc09b184e504e91de2e56110fa52e1961c8d084865c49ba0e74456ecd87d62").data) ['t', '7', '4', 't', 'q', '2', 'h', 's', 'h'] =
      v2Loop 25 8 [[], ['2', 'a'], [], [], [], [], [], [], []] (("41be9b4d745a4e3e4486fbbb601b681102bc4973a1f3d181312a8a4eddd9c3f7").data) ['t', '7', '4', 't', 'q', '2', 'h', 's', 'h'] := by
  rw [show (26 : Nat) = 25 + 1 from rfl,
      v2Loop_rehash 25 8 [[], ['2', 'a'], [], [], [], [], [], [], []] (("45bc09b184e504e91de2e56110fa52e1961c8d084865c49ba0e74456ecd87d62").data) ['t', '7', '4', 't', 'q', '2', 'h', 's', 'h'] (by decide) (by decide)]
  rw [show shaStrChars (("45bc09b184e504e91de2e56110fa52e1961c8d084865c49ba0e74456ecd87d62").data) = ("41be9b4d745a4e3e4486fbbb601b681102bc4973a1f3d181312a8a4eddd9c3f7").data from congrArg String.data shaE26]

set_option maxRecDepth 20000 in
set_option maxHeartbeats 1000000 in
theorem vstepE15 :
    v2Loop 25 8 [[], ['2', 'a'], [], [], [], [], [], [], []] (("41be9b4d745a4e3e4486fbbb601b681102bc4973a1f3d181312a8a4eddd9c3f7").data) ['t', '7', '4', 't', 'q', '2', 'h', 's', 'h'] =
      v2Loop 24 8 [[], ['2', 'a'], [], [], [], [], [], [], []] (("e4bee3fc60c5b2f7bcc53057fc24c2daf6e55f9ecf09b302e3efbd6bf830a6d5").data) ['t', '7', '4', 't', 'q', '2', 'h', 's', 'h'] := by
  rw [show (25 : Nat) = 24 + 1 from rfl,
      v2Loop_rehash 24 8 [[], ['2', 'a'], [], [], [], [], [], [], []] (("41be9b4d745a4e3e4486fbbb601b681102bc4973a1f3d181312a8a4eddd9c3f7").data) ['t', '7', '4', 't', 'q', '2', 'h', 's', 'h'] (by decide) (by decide)]
  rw [show shaStrChars (("41be9b4d745a4e3e4486fbbb601b681102bc4973a1f3d181312a8a4eddd9c3f7").data) = ("e4bee3fc60c5b2f7bcc53057fc24c2daf6e55f9ecf09b302e3efbd6bf830a6d5").data from congrArg String.data shaE27]

set_option maxRecDepth 20000 in
set_option maxHeartbeats 1000000 in
theorem vstepE16 :
    v2Loop 24 8 [[], ['2', 'a'], [], [], [], [], [], [], []] (("e4bee3fc60c5b2f7bcc53057fc24c2daf6e55f9ecf09b302e3efbd6bf830a6d5").data) ['t', '7', '4', 't', 'q', '2', 'h', 's', 'h'] =
      v2Loop 23 8 [[], ['2', 'a'], [], [], [], [], [], [], []] (("da275f111dae6ebcf43717c6f724894632ffbf65ca20658af53e880288f671b7").data) ['t', '7', '4', 't', 'q', '2', 'h', 's', 'h'] := by
  rw [show (24 : Nat) = 23 + 1 from rfl,
      v2Loop_rehash 23 8 [[], ['2', 'a'], [], [], [], [], [], [], []] (("e4bee3fc60c5b2f7bcc53057fc24c2daf6e55f9ecf09b302e3efbd6bf830a6d5").data) ['t', '7', '4', 't', 'q', '2', 'h', 's', 'h'] (by decide) (by decide)]
  rw [show shaStrChars (("e4bee3fc60c5b2f7bcc53057fc24c2daf6e55f9ecf09b302e3efbd6bf830a6d5").data) = ("da275f111dae6ebcf43717c6f724894632ffbf65ca20658af53e880288f671b7").data from congrArg String.data shaE28]

set_option maxRecDepth 20000 in
set_option maxHeartbeats 1000000 in
theorem vstepE17 :
    v2Loop 23 8 [[], ['2', 'a'], [], [], [], [], [], [], []] (("da275f111dae6ebcf43717c6f724894632ffbf65ca20658af53e880288f671b7").data) ['t', '7', '4', 't', 'q', '2', 'h', 's', 'h'] =
      v2Loop 22 9 [[], [], [], [], [], [], [], [], []] (("da275f111dae6ebcf43717c6f724894632ffbf65ca20658af53e880288f671b7").data) ['t', '7', '4', 't', 'q', '2', 'h', 's', 'h', '6'] := by
  rw [show (23 : Nat) = 22 + 1 from rfl,
      v2Loop_consume 22 8 [[], ['2', 'a'], [], [], [], [], [], [], []] (("da275f111dae6ebcf43717c6f724894632ffbf65ca20658af53e880288f671b7").data) ['t', '7', '4', 't', 'q', '2', 'h', 's', 'h'] (by decide) (by decide)]
  congr 1

set_option maxRecDepth 20000 in
set_option maxHeartbeats 1000000 in
theorem vstepDone :
    v2Loop 22 9 [[], [], [], [], [], [], [], [], []] (("da275f111dae6ebcf43717c6f724894632ffbf65ca20658af53e880288f671b7").data) ['t', '7', '4', 't', 'q', '2', 'h', 's', 'h', '6'] = some ['t', '7', '4', 't', 'q', '2', 'h', 's', 'h', '6'] := by
  rw [show (22 : Nat) = 21 + 1 from rfl]
  rw [v2Loop_done 21 9 [[], [], [], [], [], [], [], [], []] (("da275f111dae6ebcf43717c6f724894632ffbf65ca20658af53e880288f671b7").data) ['t', '7', '4', 't', 'q', '2', 'h', 's', 'h', '6'] (by decide)]

/-! ## Claim theorems -/

/-- Claim C1 counterexample: with three unpaid names, one positive-penalty
address and `last.id = 325`, the value the submission path credits is
`4 = 1 + 3`, not `5 = base + unpaid_name_count + unpaid_penalty_count` as
the claim states. -/
theorem blockValue_penaltyBonus_counterexample :
    (blocksSubmitTx c1Chain 60000 "tmineraaaa").value = 4 ∧
    getBaseBlockValue c1Chain.lastId + getUnpaidNameCount c1Chain.names +
      getUnpaidPenaltyCount c1Chain.addrs = 5 := by
  exact ⟨rfl, rfl⟩

/-- Claim C1 (amended): the value credited for an accepted block equals
`base_block_value(last.id) + unpaid_name_count`; with three unpaid names
and `last.id ≥ 325` it is `1 + 3`.  The unpaid-penalty count is added only
to the `block_value` field reported by `GET /work/detailed`, never to the
credited value. -/
theorem blockValue_amended (s : ChainState) (now : ℚ) (address : String)
    (h1 : 325 ≤ s.lastId) (h2 : getUnpaidNameCount s.names = 3) :
    (blocksSubmitTx s now address).value =
      getBaseBlockValue s.lastId + getUnpaidNameCount s.names ∧
    (blocksSubmitTx s now address).value = 1 + 3 ∧
    workDetailedBlockValue s =
      (blocksSubmitTx s now address).value + getUnpaidPenaltyCount s.addrs := by
  refine ⟨rfl, ?_, rfl⟩
  show getBlockValue s = 4
  unfold getBlockValue getBaseBlockValue
  rw [if_pos h1, h2]

/-- Witness for `blockValue_amended` at the concrete state `c1Chain`. -/
theorem blockValue_amended_witness :
    (blocksSubmitTx c1Chain 60000 "tmineraaaa").value =
      getBaseBlockValue c1Chain.lastId + getUnpaidNameCount c1Chain.names ∧
    (blocksSubmitTx c1Chain 60000 "tmineraaaa").value = 1 + 3 ∧
    workDetailedBlockValue c1Chain =
      (blocksSubmitTx c1Chain 60000 "tmineraaaa").value + getUnpaidPenaltyCount c1Chain.addrs :=
  blockValue_amended c1Chain 60000 "tmineraaaa" (by decide) (by decide)

/-- Claim C2 (code bug): with mining disabled, staking enabled, and the
submitting address equal to the current validator, the controller's
acceptance check passes but `Blocks.submit` immediately throws
`"WTF: Attempted to submit block while mining is disabled!"`, so a PoS
submission never succeeds, contradicting the claim (and spec §4.7/§4.8)
that it produces a block. -/
theorem posSubmission_hits_miningDisabled_guard :
    submitBlockController c2Env c2Chain 60000 "tabcdefghi" [0] genesisHash =
      .error (.internalError "WTF: Attempted to submit block while mining is disabled!") := by
  rfl

/-- Claim C3: a successful `pushTransaction` of value `v` decreases the
sender's balance by `v` and increases its totalout by `v`; it credits the
recipient's balance and totalin by `v`, creating the row with
`balance = totalin = v`, `totalout = 0` when absent; no other address row
changes; and the created transaction row carries `from = sender`,
`to = recipient`, `value = v`. -/
theorem pushTransaction_conservation (db : List AddressRow) (sender recipient : String)
    (v : Int) (s : AddressRow)
    (hs : getAddress db sender = some s) (hne : sender ≠ recipient)
    (hlow : toLowerStr recipient = recipient) :
    getAddress (pushTransaction db sender recipient v).1 sender =
      some { s with balance := s.balance - v, totalout := s.totalout + v } ∧
    (∀ r, getAddress db recipient = some r →
      getAddress (pushTransaction db sender recipient v).1 recipient =
        some { r with balance := r.balance + v, totalin := r.totalin + v }) ∧
    (getAddress db recipient = none →
      getAddress (pushTransaction db sender recipient v).1 recipient =
        some { address := recipient, balance := v, totalin := v, totalout := 0 }) ∧
    (∀ a, a ≠ sender → a ≠ recipient →
      getAddress (pushTransaction db sender recipient v).1 a = getAddress db a) ∧
    (pushTransaction db sender recipient v).2 =
      { from_ := some sender, to_ := recipient, value := v } := by
  have hf1 : ∀ r : AddressRow,
      ({ r with balance := r.balance - v } : AddressRow).address = r.address := fun _ => rfl
  have hf2 : ∀ r : AddressRow,
      ({ r with totalout := r.totalout + v } : AddressRow).address = r.address := fun _ => rfl
  have hg : ∀ r : AddressRow,
      ({ r with balance := r.balance + v, totalin := r.totalin + v } : AddressRow).address =
        r.address := fun _ => rfl
  have hsender2 :
      getAddress (updateRow (updateRow db sender fun r => { r with balance := r.balance - v })
        sender fun r => { r with totalout := r.totalout + v }) sender =
      some { s with balance := s.balance - v, totalout := s.totalout + v } := by
    rw [getAddress_updateRow_self _ _ _ hf2, getAddress_updateRow_self _ _ _ hf1, hs]
    rfl
  have hrec2 :
      getAddress (updateRow (updateRow db sender fun r => { r with balance := r.balance - v })
        sender fun r => { r with totalout := r.totalout + v }) recipient =
      getAddress db recipient := by
    rw [getAddress_updateRow_ne _ _ _ _ hf2 (Ne.symm hne),
        getAddress_updateRow_ne _ _ _ _ hf1 (Ne.symm hne)]
  cases hrec : getAddress db recipient with
  | none =>
    refine ⟨?_, ?_, ?_, ?_, ?_⟩
    · simp only [pushTransaction, hrec]
      exact getAddress_append_some _ _ _ _ hsender2
    · intro r hr
      exact Option.noConfusion hr
    · intro _
      simp only [pushTransaction, hrec]
      rw [getAddress_append_none _ _ _ (hrec2.trans hrec)]
      simp [getAddress, List.find?_cons, hlow]
    · intro a ha1 ha2
      simp only [pushTransaction, hrec]
      have hmid :
          getAddress (updateRow (updateRow db sender fun r => { r with balance := r.balance - v })
            sender fun r => { r with totalout := r.totalout + v }) a = getAddress db a := by
        rw [getAddress_updateRow_ne _ _ _ _ hf2 ha1, getAddress_updateRow_ne _ _ _ _ hf1 ha1]
      cases hda : getAddress db a with
      | none =>
        rw [getAddress_append_none _ _ _ (hmid.trans hda)]
        simp [getAddress, List.find?_cons, hlow, Ne.symm ha2]
      | some r =>
        rw [getAddress_append_some _ _ _ _ (hmid.trans hda)]
    · simp only [pushTransaction, hrec]
  | some r0 =>
    refine ⟨?_, ?_, ?_, ?_, ?_⟩
    · simp only [pushTransaction, hrec]
      rw [getAddress_updateRow_ne _ _ _ _ hg hne]
      exact hsender2
    · intro r hr
      injection hr with hr
      subst hr
      simp only [pushTransaction, hrec]
      rw [getAddress_updateRow_self _ _ _ hg, hrec2, hrec]
      rfl
    · intro hcon
      exact Option.noConfusion hcon
    · intro a ha1 ha2
      simp only [pushTransaction, hrec]
      rw [getAddress_updateRow_ne _ _ _ _ hg ha2,
          getAddress_updateRow_ne _ _ _ _ hf2 ha1, getAddress_updateRow_ne _ _ _ _ hf1 ha1]
    · simp only [pushTransaction, hrec]

/-- Witness for `pushTransaction_conservation`: A transfers 30 to a fresh
recipient row. -/
theorem pushTransaction_conservation_witness :
    getAddress (pushTransaction c3Db "tsenderaaa" "trecipient" 30).1 "tsenderaaa" =
      some { address := "tsenderaaa", balance := (100 : Int) - 30, totalout := (0 : Int) + 30 } ∧
    getAddress (pushTransaction c3Db "tsenderaaa" "trecipient" 30).1 "trecipient" =
      some { address := "trecipient", balance := 30, totalin := 30, totalout := 0 } := by
  have h := pushTransaction_conservation c3Db "tsenderaaa" "trecipient" 30
    { address := "tsenderaaa", balance := 100 } (by rfl) (by decide) (by decide)
  exact ⟨h.1, h.2.2.1 (by rfl)⟩

/-- Claim C4 (code bug): `Staking.penalize` cannot perform the specified
update.  `constants.validatorPenalty` is `undefined` (the stake decrement
is `Math.min(undefined, stake) = NaN`, modelled `none`), the `penalty`
column is never incremented, and the call throws
`ReferenceError: amount is not defined` while building the penalty
transaction. -/
theorem penalize_reference_error :
    penalize c4Staker =
      { stakeDecrementBy := none, penaltyIncrementBy := none, stakeActiveAfter := false,
        thrown := some (.referenceError "amount") } := by
  rfl

/-- Claim C5: submitting one block decrements `unpaid` by exactly 1 on
every name with `unpaid > 0`, leaves every other name unchanged, and
preserves `unpaid ≥ 0`. -/
theorem submit_decrements_unpaid_names (s : ChainState) (now : ℚ) (address : String) :
    ((blocksSubmitTx s now address).names.length = s.names.length) ∧
    (∀ i, (blocksSubmitTx s now address).names.getD i ({ name := "" } : NameRow) =
      (if 0 < (s.names.getD i ({ name := "" } : NameRow)).unpaid then
        { s.names.getD i ({ name := "" } : NameRow) with
            unpaid := (s.names.getD i ({ name := "" } : NameRow)).unpaid - 1 }
       else s.names.getD i ({ name := "" } : NameRow))) ∧
    ((∀ n ∈ s.names, 0 ≤ n.unpaid) →
      ∀ n ∈ (blocksSubmitTx s now address).names, 0 ≤ n.unpaid) := by
  refine ⟨?_, ?_, ?_⟩
  · show (decrementUnpaidNames s.names).length = _
    simp [decrementUnpaidNames]
  · intro i
    show (decrementUnpaidNames s.names).getD i _ = _
    simp only [decrementUnpaidNames, List.getD_eq_getElem?_getD, List.getElem?_map]
    cases h : s.names[i]? with
    | none => simp
    | some n => simp
  · intro h n hn
    rw [show (blocksSubmitTx s now address).names = decrementUnpaidNames s.names from rfl] at hn
    obtain ⟨m, hm, rfl⟩ := List.mem_map.mp hn
    have hnn := h m hm
    by_cases hp : 0 < m.unpaid <;> simp [hp] <;> omega

/-- Witness for `submit_decrements_unpaid_names` at `c5Chain`. -/
theorem submit_decrements_unpaid_names_witness :
    (blocksSubmitTx c5Chain 0 "taaaaaaaaa").names.length = c5Chain.names.length ∧
    (∀ n ∈ (blocksSubmitTx c5Chain 0 "taaaaaaaaa").names, 0 ≤ n.unpaid) :=
  ⟨(submit_decrements_unpaid_names c5Chain 0 "taaaaaaaaa").1,
   (submit_decrements_unpaid_names c5Chain 0 "taaaaaaaaa").2.2 (by decide)⟩

set_option maxRecDepth 100000 in
set_option maxHeartbeats 2000000 in
/-- Claim C6: `makeV2Address` is a pure function of the key — any two
terminating evaluations agree — and every output is a 10-character string
matching `^t[a-z0-9]{9}$`; on the key `"test"` the double-sha256 slot
algorithm yields exactly `"t74tq2hsh6"`. -/
theorem makeV2Address_pure_and_wellformed :
    (∀ fuel key, ((makeV2Address fuel key).map isV2AddressStr).getD true = true) ∧
    (∀ f g key, makeV2Address f key = none ∨ makeV2Address g key = none ∨
      makeV2Address f key = makeV2Address g key) ∧
    makeV2Address 40 "test" = some "t74tq2hsh6" := by
  refine ⟨?_, ?_, ?_⟩
  · intro fuel key
    cases hv : v2Loop fuel 0 (v2Slots 9 (shaStrChars (shaOfString key))).1
        (v2Slots 9 (shaStrChars (shaOfString key))).2 ['t'] with
    | none => simp [makeV2Address, hv]
    | some cs =>
      obtain ⟨app, happ, hlen, hall⟩ := v2Loop_shape _ _ _ _ _ _ hv
      subst happ
      simp only [Nat.sub_zero] at hlen
      simp [makeV2Address, hv, isV2AddressStr, String.length, hlen, hall]
  · intro f g key
    rcases le_total f g with hfg | hfg
    · cases hv : v2Loop f 0 (v2Slots 9 (shaStrChars (shaOfString key))).1
          (v2Slots 9 (shaStrChars (shaOfString key))).2 ['t'] with
      | none => exact Or.inl (by simp [makeV2Address, hv])
      | some cs =>
        refine Or.inr (Or.inr ?_)
        have hg := v2Loop_mono _ _ _ _ _ _ g hfg hv
        simp [makeV2Address, hv, hg]
    · cases hv : v2Loop g 0 (v2Slots 9 (shaStrChars (shaOfString key))).1
          (v2Slots 9 (shaStrChars (shaOfString key))).2 ['t'] with
      | none => exact Or.inr (Or.inl (by simp [makeV2Address, hv]))
      | some cs =>
        refine Or.inr (Or.inr ?_)
        have hf := v2Loop_mono _ _ _ _ _ _ f hfg hv
        simp [makeV2Address, hv, hf]
  ·
    rw [show makeV2Address 40 "test" =
          (v2Loop 40 0 (v2Slots 9 (shaStrChars (shaOfString "test"))).1
            (v2Slots 9 (shaStrChars (shaOfString "test"))).2 ['t']).map
            (fun cs => (⟨cs⟩ : String)) from rfl]
    rw [show shaOfString "test" = ("9f86d081884c7d659a2feaa0c55ad015a3bf4f1b2b0b822cd15d6c15b0f00a08").data from congrArg String.data shaE0]
    rw [show shaStrChars (("9f86d081884c7d659a2feaa0c55ad015a3bf4f1b2b0b822cd15d6c15b0f00a08").data) = ("7b3d979ca8330a94fa7e9e1b466d8b99e0bcdea1ec90596c0dcc8d7ef6b4300c").data from congrArg String.data shaE1]
    rw [slotsE0]
    rw [show ((([(("7b3d979ca8330a94fa7e9e1b466d8b99e0bcdea1ec90596c0dcc8d7ef6b4300c").data).take 2, (("2ace3a22375fdf5c60d78b612ccc70c88e31cfa7c3f9be023388980a2326f2fd").data).take 2, (("c475204b01b18aa30282df8f80c602c13b2c9cc813b86a481a7b821bd80f075b").data).take 2, (("cb90fcef122aaeed3ff1c881fd131172a55f86084cf513970ab80086d2d9fa4b").data).take 2, (("bc89c6f72947bcd2f783d342a46cafcfccfcc2e7884a34f1cfe8f55bad2d200e").data).take 2, (("3231e8e38f7220abc38a231b6761af796f730e562c77f31d69bfa97257fc4f0f").data).take 2, (("135eb652d5a3b94b948fbc24193d7418687b38a0931e17aa594f15c09a6806c9").data).take 2, (("1cdace1337aec80e99a74ec9c143ab578dd95e27a2bdf618b3c00ddf3026e516").data).take 2, (("7a9390fa0bc98f86d776ce113d5b504bcd24c23ab0c663ba6d33f769e3436290").data).take 2], ("5f3d6f3a69c4221f05e9e569090a0e2322f64f9e60d9756339c078427a5a8ac0").data) : List (List Char) × List Char)).1 = [(("7b3d979ca8330a94fa7e9e1b466d8b99e0bcdea1ec90596c0dcc8d7ef6b4300c").data).take 2, (("2ace3a22375fdf5c60d78b612ccc70c88e31cfa7c3f9be023388980a2326f2fd").data).take 2, (("c475204b01b18aa30282df8f80c602c13b2c9cc813b86a481a7b821bd80f075b").data).take 2, (("cb90fcef122aaeed3ff1c881fd131172a55f86084cf513970ab80086d2d9fa4b").data).take 2, (("bc89c6f72947bcd2f783d342a46cafcfccfcc2e7884a34f1cfe8f55bad2d200e").data).take 2, (("3231e8e38f7220abc38a231b6761af796f730e562c77f31d69bfa97257fc4f0f").data).take 2, (("135eb652d5a3b94b948fbc24193d7418687b38a0931e17aa594f15c09a6806c9").data).take 2, (("1cdace1337aec80e99a74ec9c143ab578dd95e27a2bdf618b3c00ddf3026e516").data).take 2, (("7a9390fa0bc98f86d776ce113d5b504bcd24c23ab0c663ba6d33f769e3436290").data).take 2] from rfl]
    rw [show ((([(("7b3d979ca8330a94fa7e9e1b466d8b99e0bcdea1ec90596c0dcc8d7ef6b4300c").data).take 2, (("2ace3a22375fdf5c60d78b612ccc70c88e31cfa7c3f9be023388980a2326f2fd").data).take 2, (("c475204b01b18aa30282df8f80c602c13b2c9cc813b86a481a7b821bd80f075b").data).take 2, (("cb90fcef122aaeed3ff1c881fd131172a55f86084cf513970ab80086d2d9fa4b").data).take 2, (("bc89c6f72947bcd2f783d342a46cafcfccfcc2e7884a34f1cfe8f55bad2d200e").data).take 2, (("3231e8e38f7220abc38a231b6761af796f730e562c77f31d69bfa97257fc4f0f").data).take 2, (("135eb652d5a3b94b948fbc24193d7418687b38a0931e17aa594f15c09a6806c9").data).take 2, (("1cdace1337aec80e99a74ec9c143ab578dd95e27a2bdf618b3c00ddf3026e516").data).take 2, (("7a9390fa0bc98f86d776ce113d5b504bcd24c23ab0c663ba6d33f769e3436290").data).take 2], ("5f3d6f3a69c4221f05e9e569090a0e2322f64f9e60d9756339c078427a5a8ac0").data) : List (List Char) × List Char)).2 = ("5f3d6f3a69c4221f05e9e569090a0e2322f64f9e60d9756339c078427a5a8ac0").data from rfl]
    rw [show ([(("7b3d979ca8330a94fa7e9e1b466d8b99e0bcdea1ec90596c0dcc8d7ef6b4300c").data).take 2, (("2ace3a22375fdf5c60d78b612ccc70c88e31cfa7c3f9be023388980a2326f2fd").data).take 2, (("c475204b01b18aa30282df8f80c602c13b2c9cc813b86a481a7b821bd80f075b").data).take 2, (("cb90fcef122aaeed3ff1c881fd131172a55f86084cf513970ab80086d2d9fa4b").data).take 2, (("bc89c6f72947bcd2f783d342a46cafcfccfcc2e7884a34f1cfe8f55bad2d200e").data).take 2, (("3231e8e38f7220abc38a231b6761af796f730e562c77f31d69bfa97257fc4f0f").data).take 2, (("135eb652d5a3b94b948fbc24193d7418687b38a0931e17aa594f15c09a6806c9").data).take 2, (("1cdace1337aec80e99a74ec9c143ab578dd95e27a2bdf618b3c00ddf3026e516").data).take 2, (("7a9390fa0bc98f86d776ce113d5b504bcd24c23ab0c663ba6d33f769e3436290").data).take 2] : List (List Char)) = [['7', 'b'], ['2', 'a'], ['c', '4'], ['c', 'b'], ['b', 'c'], ['3', '2'], ['1', '3'], ['1', 'c'], ['7', 'a']] from by decide]
    rw [vstepE0]
    rw [vstepE1]
    rw [vstepE2]
    rw [vstepE3]
    rw [vstepE4]
    rw [vstepE5]
    rw [vstepE6]
    rw [vstepE7]
    rw [vstepE8]
    rw [vstepE9]
    rw [vstepE10]
    rw [vstepE11]
    rw [vstepE12]
    rw [vstepE13]
    rw [vstepE14]
    rw [vstepE15]
    rw [vstepE16]
    rw [vstepE17]
    rw [vstepDone]
    rfl

/-- Claim C7: `verify` computes `h = sha256(address ‖ privatekey)`; it
creates a zero-balance row holding `h` and returns authed for an unseen
address, claims the address by storing `h` when the stored hash is null,
and otherwise returns `authed = (¬locked ∧ stored == h)` without touching
the row. -/
theorem verify_auth_contract (row? : Option AddressRow) (addr pk : String) :
    (row? = none → verify row? addr pk = (true,
      { address := addr, balance := 0, totalin := 0, totalout := 0,
        privatekey := some (sha256S (addr ++ pk)) })) ∧
    (∀ r, row? = some r → r.privatekey = none →
      verify row? addr pk = (true, { r with privatekey := some (sha256S (addr ++ pk)) })) ∧
    (∀ r p, row? = some r → r.privatekey = some p → p ≠ "" →
      verify row? addr pk = ((!r.locked && (p == sha256S (addr ++ pk))), r)) := by
  refine ⟨?_, ?_, ?_⟩
  · rintro rfl
    rfl
  · rintro r rfl hnone
    simp [verify, jsTruthy, hnone]
  · rintro r p rfl hsome hp
    have ht : jsTruthy (some p) = true := by simp [jsTruthy, hp]
    simp [verify, hsome, ht]

/-- Witness for `verify_auth_contract` on a row with a stored hash. -/
theorem verify_auth_contract_witness :
    verify (some c7Row) "taddraaaaa" "pk" =
      ((!c7Row.locked && ("deadbeef" == sha256S ("taddraaaaa" ++ "pk"))), c7Row) :=
  (verify_auth_contract (some c7Row) "taddraaaaa" "pk").2.2 c7Row "deadbeef" rfl rfl
    (by decide)

/-- Claim C8 counterexample: a row with `from = ""` and `to = "staking"`
is classified `mined` by the code (JS `!transaction.from` is true for the
empty string), while the claim's rules classify it `staking` because
`from` is not null. -/
theorem identifyTransactionType_blank_from_counterexample :
    identifyTransactionType c8Cex = .mined ∧ claimedTransactionType c8Cex = .staking ∧
    identifyTransactionType c8Cex ≠ claimedTransactionType c8Cex := by
  decide

/-- Claim C8 (amended): the classification applies, in order: `mined` when
`from` is JS-falsy (null or the empty string); `staking` when `from` or
`to` equals `"staking"`; the three name rules when `name` is set and
non-empty; else `transfer`. -/
theorem identifyTransactionType_amended (t : TxRow) :
    (identifyTransactionType t = .mined ↔ jsTruthy t.from_ = false) ∧
    (identifyTransactionType t = .staking ↔ jsTruthy t.from_ = true ∧
      (t.from_ = some "staking" ∨ t.to_ = "staking")) ∧
    (identifyTransactionType t = .name_purchase ↔ jsTruthy t.from_ = true ∧
      t.from_ ≠ some "staking" ∧ t.to_ ≠ "staking" ∧ jsTruthy t.name = true ∧
      t.to_ = "name") ∧
    (identifyTransactionType t = .name_a_record ↔ jsTruthy t.from_ = true ∧
      t.from_ ≠ some "staking" ∧ t.to_ ≠ "staking" ∧ jsTruthy t.name = true ∧
      t.to_ ≠ "name" ∧ t.to_ = "a") ∧
    (identifyTransactionType t = .name_transfer ↔ jsTruthy t.from_ = true ∧
      t.from_ ≠ some "staking" ∧ t.to_ ≠ "staking" ∧ jsTruthy t.name = true ∧
      t.to_ ≠ "name" ∧ t.to_ ≠ "a") ∧
    (identifyTransactionType t = .transfer ↔ jsTruthy t.from_ = true ∧
      t.from_ ≠ some "staking" ∧ t.to_ ≠ "staking" ∧ jsTruthy t.name = false) := by
  unfold identifyTransactionType
  split_ifs with h1 h2 h3 h4 h5 <;>
    (simp_all [Bool.or_eq_true, beq_iff_eq, Bool.not_eq_true']; try tauto)

/-- Witness for `identifyTransactionType_amended` on a mined row. -/
theorem identifyTransactionType_amended_witness :
    identifyTransactionType ({ from_ := none, to_ := "taddraaaab" } : TxRow) = .mined ↔
      jsTruthy ({ from_ := none, to_ := "taddraaaab" } : TxRow).from_ = false :=
  (identifyTransactionType_amended { from_ := none, to_ := "taddraaaab" }).1

/-- Claim C9: for `min_work ≤ w ≤ max_work` the retarget the source
computes equals `clamp(round(w + (target − w)·work_factor), min_work,
max_work)` with `target = seconds·w / seconds_per_block`, and with
`seconds = seconds_per_block` the retarget returns `w` unchanged. -/
theorem retarget_clamp_round_idempotent (w : Int) (seconds : ℚ)
    (h1 : (100 : Int) ≤ w) (h2 : w ≤ 100000) :
    retargetWork w seconds = claimedRetarget w seconds ∧
    (seconds = 60 → retargetWork w seconds = w) := by
  constructor
  · unfold retargetWork claimedRetarget
    simp only [constants]
    have e1 : ((100000 : Nat) : ℚ) = (((100000 : Nat) : Int) : ℚ) := by norm_num
    have e2 : ((100 : Nat) : ℚ) = (((100 : Nat) : Int) : ℚ) := by norm_num
    rw [e1, e2, jsRound_clamp _ _ _ (by norm_num)]
  · intro hs
    subst hs
    unfold retargetWork
    simp only [constants]
    have e0 : (60 : ℚ) * (w : ℚ) / ((60 : Nat) : ℚ) - (w : ℚ) = 0 := by
      push_cast
      field_simp
    rw [e0, zero_mul, add_zero]
    have hw1 : ((100 : Nat) : ℚ) ≤ (w : ℚ) := by exact_mod_cast h1
    have hw2 : (w : ℚ) ≤ ((100000 : Nat) : ℚ) := by exact_mod_cast h2
    rw [min_eq_left hw2, max_eq_left hw1, jsRound_intCast]

/-- Witness for `retarget_clamp_round_idempotent` at `w = 5000`,
`seconds = 60`. -/
theorem retarget_clamp_round_idempotent_witness :
    retargetWork 5000 60 = claimedRetarget 5000 60 ∧
    ((60 : ℚ) = 60 → retargetWork 5000 60 = 5000) :=
  retarget_clamp_round_idempotent 5000 60 (by norm_num) (by norm_num)

/-- Claim C10: with `includeMined` false, both the plain transaction
listing and the by-address listing keep a row exactly when its `from`
field is none of null, the empty string, and a single space — blank
senders are excluded exactly like mined rows. -/
theorem excludeMined_blank_like_null (db : List TxRow) (address : String) :
    (getTransactionsFilter false db =
      db.filter fun t => !(t.from_ == none || t.from_ == some "" || t.from_ == some " ")) ∧
    (getTransactionsByAddressFilter false address db =
      db.filter fun t => t.from_ == some address ||
        (!(t.from_ == none || t.from_ == some "" || t.from_ == some " ") && t.to_ == address)) := by
  constructor
  · exact List.filter_congr fun t _ => by
      simp only [Bool.false_or, excludeMinedPass_eq]
  · exact List.filter_congr fun t _ => by
      simp only [if_neg, excludeMinedPass_eq]
      rfl

end Tenebra
